import Mathlib

/-!
Verification of the line-follower core: the P/PD/PI/PID controller family
(src/application/PIDController, src/main) and the EEPROM calibration
manager (src/main/PIController.cpp, version 2.0 manager).

Floating-point state is embedded as exact rationals; machine integers as
naturals with explicit reduction modulo 2^32 where the C code wraps.
-/

namespace LineFollower

/-- Saturating clamp, `BaseController::applyLimits`: return `hi` if above,
`lo` if below, else the value itself. -/
def applyLimits (value lo hi : ℚ) : ℚ :=
  if value > hi then hi
  else if value < lo then lo
  else value

/-- State of `PController` (base fields flattened in). -/
structure PState where
  setpoint : ℚ
  output : ℚ
  dt : ℚ
  min_output : ℚ
  max_output : ℚ
  Kp : ℚ

/-- State of `PDController`. -/
structure PDState where
  setpoint : ℚ
  output : ℚ
  dt : ℚ
  min_output : ℚ
  max_output : ℚ
  Kp : ℚ
  Kd : ℚ
  prev_error : ℚ

/-- State of `PIController`. -/
structure PIState where
  setpoint : ℚ
  output : ℚ
  dt : ℚ
  min_output : ℚ
  max_output : ℚ
  Kp : ℚ
  Ki : ℚ
  integral : ℚ
  anti_windup : ℚ

/-- State of `PIDController`. -/
structure PIDState where
  setpoint : ℚ
  output : ℚ
  dt : ℚ
  min_output : ℚ
  max_output : ℚ
  Kp : ℚ
  Ki : ℚ
  Kd : ℚ
  integral : ℚ
  prev_error : ℚ
  anti_windup : ℚ

namespace PController

/-- `PController::reset`: clear `output` only. -/
def reset (s : PState) : PState := { s with output := 0 }

/-- `PController::init`: base checks (`dt <= 0`, `min_output >= max_output`),
then `Kp < 0` check, then `reset`. -/
def init (s : PState) : Bool × PState :=
  if s.dt ≤ 0 then (false, s)
  else if s.min_output ≥ s.max_output then (false, s)
  else
    let s1 := { s with output := 0, setpoint := 0 }
    if s.Kp < 0 then (false, s1)
    else (true, reset s1)

/-- `PController::compute`: `output = applyLimits (Kp*error)`. -/
def compute (s : PState) (error : ℚ) : ℚ × PState :=
  let p_term := s.Kp * error
  let out := applyLimits p_term s.min_output s.max_output
  (out, { s with output := out })

/-- `PController::setKp`. -/
def setKp (s : PState) (Kp : ℚ) : PState := { s with Kp := Kp }

end PController

namespace PDController

/-- `PDController::reset`: clear `prev_error` and `output`. -/
def reset (s : PDState) : PDState := { s with prev_error := 0, output := 0 }

/-- `PDController::init`. -/
def init (s : PDState) : Bool × PDState :=
  if s.dt ≤ 0 then (false, s)
  else if s.min_output ≥ s.max_output then (false, s)
  else
    let s1 := { s with output := 0, setpoint := 0 }
    if s.Kp < 0 ∨ s.Kd < 0 then (false, s1)
    else if s.Kp = 0 ∧ s.Kd = 0 then (false, s1)
    else (true, reset s1)

/-- `PDController::compute`. -/
def compute (s : PDState) (error : ℚ) : ℚ × PDState :=
  let p_term := s.Kp * error
  let error_rate := (error - s.prev_error) / s.dt
  let d_term := s.Kd * error_rate
  let pd_output := p_term + d_term
  let out := applyLimits pd_output s.min_output s.max_output
  (out, { s with prev_error := error, output := out })

end PDController

namespace PIController

/-- `PIController::reset`: clear `integral` and `output`. -/
def reset (s : PIState) : PIState := { s with integral := 0, output := 0 }

/-- `PIController::init`: base checks, negative-gain check, both-zero check,
`anti_windup <= 0` check, then `reset`. -/
def init (s : PIState) : Bool × PIState :=
  if s.dt ≤ 0 then (false, s)
  else if s.min_output ≥ s.max_output then (false, s)
  else
    let s1 := { s with output := 0, setpoint := 0 }
    if s.Kp < 0 ∨ s.Ki < 0 then (false, s1)
    else if s.Kp = 0 ∧ s.Ki = 0 then (false, s1)
    else if s.anti_windup ≤ 0 then (false, s1)
    else (true, reset s1)

/-- `PIController::compute`: accumulate, clamp the accumulator to the
anti-windup band, then clamp the P+I sum to the output band. -/
def compute (s : PIState) (error : ℚ) : ℚ × PIState :=
  let p_term := s.Kp * error
  let integral1 := s.integral + s.Ki * error * s.dt
  let integral2 := applyLimits integral1 (-s.anti_windup) s.anti_windup
  let i_term := integral2
  let pi_output := p_term + i_term
  let out := applyLimits pi_output s.min_output s.max_output
  (out, { s with integral := integral2, output := out })

/-- `PIController::setKp`: updates the gain only. -/
def setKp (s : PIState) (Kp : ℚ) : PIState := { s with Kp := Kp }

/-- `PIController::setKi`: updates the gain and zeroes `integral`. -/
def setKi (s : PIState) (Ki : ℚ) : PIState := { s with Ki := Ki, integral := 0 }

/-- `PIController::setGains`: updates both gains and zeroes `integral`. -/
def setGains (s : PIState) (Kp Ki : ℚ) : PIState :=
  { s with Kp := Kp, Ki := Ki, integral := 0 }

/-- `PIController::setAntiWindupLimit`: store `|limit|` unmodified (a large
value only triggers a warning), then re-clamp `integral` to the new band. -/
def setAntiWindupLimit (s : PIState) (limit : ℚ) : PIState :=
  let limit1 := |limit|
  let s1 := { s with anti_windup := limit1 }
  { s1 with integral := applyLimits s1.integral (-s1.anti_windup) s1.anti_windup }

end PIController

namespace PIDController

/-- `PIDController::reset`: clear `integral`, `prev_error` and `output`. -/
def reset (s : PIDState) : PIDState :=
  { s with integral := 0, prev_error := 0, output := 0 }

/-- `PIDController::init`. -/
def init (s : PIDState) : Bool × PIDState :=
  if s.dt ≤ 0 then (false, s)
  else if s.min_output ≥ s.max_output then (false, s)
  else
    let s1 := { s with output := 0, setpoint := 0 }
    if s.Kp < 0 ∨ s.Ki < 0 ∨ s.Kd < 0 then (false, s1)
    else if s.Kp = 0 ∧ s.Ki = 0 ∧ s.Kd = 0 then (false, s1)
    else (true, reset s1)

/-- `PIDController::compute`: P term, clamped integral accumulation,
derivative on the error signal, then the final output clamp. -/
def compute (s : PIDState) (error : ℚ) : ℚ × PIDState :=
  let p_term := s.Kp * error
  let integral1 := s.integral + s.Ki * error * s.dt
  let integral2 := applyLimits integral1 (-s.anti_windup) s.anti_windup
  let i_term := integral2
  let error_rate := (error - s.prev_error) / s.dt
  let d_term := s.Kd * error_rate
  let pid_output := p_term + i_term + d_term
  let out := applyLimits pid_output s.min_output s.max_output
  (out, { s with integral := integral2, prev_error := error, output := out })

/-- `PIDController::setKp`: updates the gain only. -/
def setKp (s : PIDState) (Kp : ℚ) : PIDState := { s with Kp := Kp }

/-- `PIDController::setKi`: updates the gain and zeroes `integral`. -/
def setKi (s : PIDState) (Ki : ℚ) : PIDState := { s with Ki := Ki, integral := 0 }

/-- `PIDController::setKd`: updates the gain only. -/
def setKd (s : PIDState) (Kd : ℚ) : PIDState := { s with Kd := Kd }

/-- `PIDController::setGains`: updates all three gains and zeroes `integral`. -/
def setGains (s : PIDState) (Kp Ki Kd : ℚ) : PIDState :=
  { s with Kp := Kp, Ki := Ki, Kd := Kd, integral := 0 }

/-- `PIDController::setAntiWindupLimit`: take `|limit|`, cap it at
`|max_output|`, then re-clamp `integral` to the new band. -/
def setAntiWindupLimit (s : PIDState) (limit : ℚ) : PIDState :=
  let limit1 := |limit|
  let max_possible := |s.max_output|
  let limit2 := if limit1 > max_possible then max_possible else limit1
  let s1 := { s with anti_windup := limit2 }
  { s1 with integral := applyLimits s1.integral (-s1.anti_windup) s1.anti_windup }

/-- `PIDController::PIDController`: the constructor converts `dt_ms` to
seconds (0 is normalized to 1 ms), swaps inverted bounds, and defaults
`anti_windup` to the absolute value of the `max_output` argument. -/
def construct (Kp Ki Kd : ℚ) (dt_ms : Nat) (min_output max_output : ℚ) : PIDState :=
  let dt : ℚ := if dt_ms = 0 then 1 / 1000 else (dt_ms : ℚ) / 1000
  let mn := if min_output ≥ max_output then max_output else min_output
  let mx := if min_output ≥ max_output then min_output else max_output
  { setpoint := 0, output := 0, dt := dt, min_output := mn, max_output := mx,
    Kp := Kp, Ki := Ki, Kd := Kd, integral := 0, prev_error := 0,
    anti_windup := |max_output| }

end PIDController

/-- The clamp lands in the band whenever the band is non-empty. -/
theorem applyLimits_mem (value lo hi : ℚ) (h : lo ≤ hi) :
    lo ≤ applyLimits value lo hi ∧ applyLimits value lo hi ≤ hi := by
  unfold applyLimits
  split
  · exact ⟨h, le_refl hi⟩
  · split
    · exact ⟨le_refl lo, h⟩
    · constructor <;> linarith

/-- `PController::init` succeeds exactly when the base checks pass and `Kp`
is non-negative; a zero `Kp` is accepted (it is only warned about). -/
theorem PController_init_iff (s : PState) :
    (PController.init s).1 = true ↔
      (0 < s.dt ∧ s.min_output < s.max_output ∧ 0 ≤ s.Kp) := by
  simp only [PController.init]
  split_ifs with h1 h2 h3
  · exact iff_of_false (by simp) (by rintro ⟨h, -, -⟩; linarith)
  · exact iff_of_false (by simp) (by rintro ⟨-, h, -⟩; linarith)
  · exact iff_of_false (by simp) (by rintro ⟨-, -, h⟩; linarith)
  · exact iff_of_true rfl ⟨by linarith, by linarith, by linarith⟩

/-- `PDController::init` success condition. -/
theorem PDController_init_iff (s : PDState) :
    (PDController.init s).1 = true ↔
      (0 < s.dt ∧ s.min_output < s.max_output ∧ 0 ≤ s.Kp ∧ 0 ≤ s.Kd ∧
        ¬(s.Kp = 0 ∧ s.Kd = 0)) := by
  simp only [PDController.init]
  split_ifs with h1 h2 h3 h4
  · exact iff_of_false (by simp) (by rintro ⟨h, -, -, -, -⟩; linarith)
  · exact iff_of_false (by simp) (by rintro ⟨-, h, -, -, -⟩; linarith)
  · refine iff_of_false (by simp) ?_
    rintro ⟨-, -, ha, hb, -⟩
    rcases h3 with h3 | h3 <;> linarith
  · exact iff_of_false (by simp) (by rintro ⟨-, -, -, -, h⟩; exact h h4)
  · push_neg at h3
    exact iff_of_true rfl
      ⟨by linarith, by linarith, h3.1, h3.2, h4⟩

/-- `PIController::init` success condition, including the defensive
`anti_windup <= 0` re-check. -/
theorem PIController_init_iff (s : PIState) :
    (PIController.init s).1 = true ↔
      (0 < s.dt ∧ s.min_output < s.max_output ∧ 0 ≤ s.Kp ∧ 0 ≤ s.Ki ∧
        ¬(s.Kp = 0 ∧ s.Ki = 0) ∧ 0 < s.anti_windup) := by
  simp only [PIController.init]
  split_ifs with h1 h2 h3 h4 h5
  · exact iff_of_false (by simp) (by rintro ⟨h, -, -, -, -, -⟩; linarith)
  · exact iff_of_false (by simp) (by rintro ⟨-, h, -, -, -, -⟩; linarith)
  · refine iff_of_false (by simp) ?_
    rintro ⟨-, -, ha, hb, -, -⟩
    rcases h3 with h3 | h3 <;> linarith
  · exact iff_of_false (by simp) (by rintro ⟨-, -, -, -, h, -⟩; exact h h4)
  · exact iff_of_false (by simp) (by rintro ⟨-, -, -, -, -, h⟩; linarith)
  · push_neg at h3
    exact iff_of_true rfl
      ⟨by linarith, by linarith, h3.1, h3.2, h4, by linarith⟩

/-- `PIDController::init` success condition. -/
theorem PIDController_init_iff (s : PIDState) :
    (PIDController.init s).1 = true ↔
      (0 < s.dt ∧ s.min_output < s.max_output ∧ 0 ≤ s.Kp ∧ 0 ≤ s.Ki ∧ 0 ≤ s.Kd ∧
        ¬(s.Kp = 0 ∧ s.Ki = 0 ∧ s.Kd = 0)) := by
  simp only [PIDController.init]
  split_ifs with h1 h2 h3 h4
  · exact iff_of_false (by simp) (by rintro ⟨h, -, -, -, -, -⟩; linarith)
  · exact iff_of_false (by simp) (by rintro ⟨-, h, -, -, -, -⟩; linarith)
  · refine iff_of_false (by simp) ?_
    rintro ⟨-, -, ha, hb, hc, -⟩
    rcases h3 with h3 | h3 | h3 <;> linarith
  · exact iff_of_false (by simp) (by rintro ⟨-, -, -, -, -, h⟩; exact h h4)
  · push_neg at h3
    exact iff_of_true rfl
      ⟨by linarith, by linarith, h3.1, h3.2.1, h3.2.2, h4⟩

/-- Claim C1: for every controller variant with a valid output band, the
value returned by `compute` lies within `[min_output, max_output]` and is
the value stored into `output`, because every variant routes its raw result
through `applyLimits`. -/
theorem C1_compute_output_bounded
    (sP : PState) (sPD : PDState) (sPI : PIState) (sPID : PIDState) (e : ℚ)
    (hP : sP.min_output < sP.max_output) (hPD : sPD.min_output < sPD.max_output)
    (hPI : sPI.min_output < sPI.max_output) (hPID : sPID.min_output < sPID.max_output) :
    ((PController.compute sP e).2.output = (PController.compute sP e).1 ∧
      sP.min_output ≤ (PController.compute sP e).1 ∧
      (PController.compute sP e).1 ≤ sP.max_output) ∧
    ((PDController.compute sPD e).2.output = (PDController.compute sPD e).1 ∧
      sPD.min_output ≤ (PDController.compute sPD e).1 ∧
      (PDController.compute sPD e).1 ≤ sPD.max_output) ∧
    ((PIController.compute sPI e).2.output = (PIController.compute sPI e).1 ∧
      sPI.min_output ≤ (PIController.compute sPI e).1 ∧
      (PIController.compute sPI e).1 ≤ sPI.max_output) ∧
    ((PIDController.compute sPID e).2.output = (PIDController.compute sPID e).1 ∧
      sPID.min_output ≤ (PIDController.compute sPID e).1 ∧
      (PIDController.compute sPID e).1 ≤ sPID.max_output) :=
  ⟨⟨rfl, applyLimits_mem _ _ _ (le_of_lt hP)⟩,
   ⟨rfl, applyLimits_mem _ _ _ (le_of_lt hPD)⟩,
   ⟨rfl, applyLimits_mem _ _ _ (le_of_lt hPI)⟩,
   ⟨rfl, applyLimits_mem _ _ _ (le_of_lt hPID)⟩⟩

/-- A concrete P-controller state used to witness the bound claims. -/
def wP : PState :=
  { setpoint := 0, output := 0, dt := 1/1000, min_output := -1023,
    max_output := 1023, Kp := 2 }

/-- A concrete PD-controller state used to witness the bound claims. -/
def wPD : PDState :=
  { setpoint := 0, output := 0, dt := 1/1000, min_output := -1023,
    max_output := 1023, Kp := 2, Kd := 1/10, prev_error := 0 }

/-- A concrete PI-controller state used to witness the bound claims. -/
def wPI : PIState :=
  { setpoint := 0, output := 0, dt := 1/100, min_output := -1023,
    max_output := 1023, Kp := 1, Ki := 1, integral := 0, anti_windup := 10 }

/-- A concrete PID-controller state used to witness the bound claims. -/
def wPID : PIDState :=
  { setpoint := 0, output := 0, dt := 1/100, min_output := -1023,
    max_output := 1023, Kp := 2, Ki := 1/2, Kd := 1/10, integral := 0,
    prev_error := 0, anti_windup := 10 }

/-- Witness for C1 at concrete states and error 500000. -/
theorem C1_compute_output_bounded_witness :
    wP.min_output ≤ (PController.compute wP 500000).1 ∧
      (PIDController.compute wPID 500000).1 ≤ wPID.max_output :=
  ⟨(C1_compute_output_bounded wP wPD wPI wPID 500000
      (by norm_num [wP]) (by norm_num [wPD]) (by norm_num [wPI])
      (by norm_num [wPID])).1.2.1,
   (C1_compute_output_bounded wP wPD wPI wPID 500000
      (by norm_num [wP]) (by norm_num [wPD]) (by norm_num [wPI])
      (by norm_num [wPID])).2.2.2.2.2⟩

/-- Claim C4 (amended): the exact success condition of `init()` for each
variant. The P variant accepts `Kp = 0` (contrary to the original claim),
and the PI variant additionally requires `anti_windup > 0`. -/
theorem C4_init_success_iff
    (sP : PState) (sPD : PDState) (sPI : PIState) (sPID : PIDState) :
    ((PController.init sP).1 = true ↔
      (0 < sP.dt ∧ sP.min_output < sP.max_output ∧ 0 ≤ sP.Kp)) ∧
    ((PDController.init sPD).1 = true ↔
      (0 < sPD.dt ∧ sPD.min_output < sPD.max_output ∧ 0 ≤ sPD.Kp ∧ 0 ≤ sPD.Kd ∧
        ¬(sPD.Kp = 0 ∧ sPD.Kd = 0))) ∧
    ((PIController.init sPI).1 = true ↔
      (0 < sPI.dt ∧ sPI.min_output < sPI.max_output ∧ 0 ≤ sPI.Kp ∧ 0 ≤ sPI.Ki ∧
        ¬(sPI.Kp = 0 ∧ sPI.Ki = 0) ∧ 0 < sPI.anti_windup)) ∧
    ((PIDController.init sPID).1 = true ↔
      (0 < sPID.dt ∧ sPID.min_output < sPID.max_output ∧ 0 ≤ sPID.Kp ∧
        0 ≤ sPID.Ki ∧ 0 ≤ sPID.Kd ∧ ¬(sPID.Kp = 0 ∧ sPID.Ki = 0 ∧ sPID.Kd = 0))) :=
  ⟨PController_init_iff sP, PDController_init_iff sPD,
   PIController_init_iff sPI, PIDController_init_iff sPID⟩

/-- A P-controller state with zero gain and valid base parameters. -/
def c4state : PState :=
  { setpoint := 0, output := 0, dt := 1/1000, min_output := -1023,
    max_output := 1023, Kp := 0 }

/-- Counterexample to C4 as stated: a P controller whose only gain is zero
and whose base validation passes still has `init()` return `true`, while the
claim demands `false` whenever all of the variant's gains are zero. -/
theorem C4_counterexample :
    (PController.init c4state).1 = true ∧ c4state.Kp = 0 ∧
      0 < c4state.dt ∧ c4state.min_output < c4state.max_output := by
  refine ⟨?_, ?_, ?_, ?_⟩ <;> norm_num [PController.init, c4state]

/-- Claim C5 (amended): `integral` is zeroed by `setKi`, `setGains` and
`reset` on both PI and PID controllers; the gain setters that do not touch
`Ki` (`setKp`, and `setKd` on PID) leave `integral` unchanged. -/
theorem C5_integral_reset
    (sPI : PIState) (sPID : PIDState) (k k2 k3 : ℚ) :
    (PIController.setKi sPI k).integral = 0 ∧
    (PIController.setGains sPI k k2).integral = 0 ∧
    (PIController.reset sPI).integral = 0 ∧
    (PIController.setKp sPI k).integral = sPI.integral ∧
    (PIDController.setKi sPID k).integral = 0 ∧
    (PIDController.setGains sPID k k2 k3).integral = 0 ∧
    (PIDController.reset sPID).integral = 0 ∧
    (PIDController.setKp sPID k).integral = sPID.integral ∧
    (PIDController.setKd sPID k).integral = sPID.integral :=
  ⟨rfl, rfl, rfl, rfl, rfl, rfl, rfl, rfl, rfl⟩

/-- A PI-controller state reached by one `compute(500)` call after a
successful `init`, leaving `integral = 5`. -/
def c5run : PIState :=
  (PIController.compute (PIController.init
    { setpoint := 0, output := 0, dt := 1/100, min_output := -1023,
      max_output := 1023, Kp := 1, Ki := 1, integral := 0,
      anti_windup := 1023 }).2 500).2

/-- Counterexample to C5 as stated: changing a gain via `setKp` on a PI
controller does not reset the integral accumulator, while the claim demands
a reset whenever any gain changes. -/
theorem C5_counterexample :
    c5run.integral = 5 ∧ (PIController.setKp c5run 3).integral = 5 := by
  have h : c5run.integral = 5 := by
    norm_num [c5run, PIController.compute, PIController.init,
      PIController.reset, applyLimits]
  exact ⟨h, h⟩

/-- Claim C6: after every `compute` call of a PI or PID controller with a
positive anti-windup limit, the integral accumulator is within
`[-anti_windup, anti_windup]`, because it is clamped inside `compute`
independently of the output clamp. -/
theorem C6_integral_bounded (sPI : PIState) (sPID : PIDState) (e : ℚ)
    (hPI : 0 < sPI.anti_windup) (hPID : 0 < sPID.anti_windup) :
    |(PIController.compute sPI e).2.integral| ≤ sPI.anti_windup ∧
    |(PIDController.compute sPID e).2.integral| ≤ sPID.anti_windup := by
  have h1 := applyLimits_mem (sPI.integral + sPI.Ki * e * sPI.dt)
    (-sPI.anti_windup) sPI.anti_windup (by linarith)
  have h2 := applyLimits_mem (sPID.integral + sPID.Ki * e * sPID.dt)
    (-sPID.anti_windup) sPID.anti_windup (by linarith)
  exact ⟨abs_le.mpr h1, abs_le.mpr h2⟩

/-- Witness for C6: with anti-windup limit 10 and a huge error the
accumulator stays within the band. -/
theorem C6_integral_bounded_witness :
    |(PIController.compute wPI 1000000).2.integral| ≤ wPI.anti_windup :=
  (C6_integral_bounded wPI wPID 1000000 (by norm_num [wPI])
    (by norm_num [wPID])).1

/-- A shorthand for the post-init state of the C8 worked scenario. -/
def c8state : PIDState :=
  (PIDController.init (PIDController.construct 2 (1/2) (1/10) 10 (-1023) 1023)).2

/-- Counterexample to C8 as stated: in the worked scenario the raw sum
`Kp*error + integral + Kd*derivative` is `1000 + 5/2 + 5000 = 12005/2`
(6002.5), not the `7002.5` asserted by the claim. -/
theorem C8_counterexample :
    c8state.Kp * 500 + (PIDController.compute c8state 500).2.integral
        + c8state.Kd * ((500 - c8state.prev_error) / c8state.dt) = 12005/2 ∧
      (12005 : ℚ)/2 ≠ 14005/2 := by
  constructor <;>
    norm_num [c8state, PIDController.construct, PIDController.init,
      PIDController.reset, PIDController.compute, applyLimits]

/-- Claim C8 (amended): the worked PID scenario. `Kp=2, Ki=1/2, Kd=1/10`, a
10 ms sample interval, bounds `[-1023, 1023]`, fed `error = 500` once from
the reset state: the integral becomes `5/2`, the error rate is `50000`, the
raw sum is `1000 + 5/2 + 5000 = 12005/2` (not the `7002.5` stated in the
spec), and the clamped output is exactly `1023`. -/
theorem C8_pid_example_scenario :
    (PIDController.init (PIDController.construct 2 (1/2) (1/10) 10 (-1023) 1023)).1
        = true ∧
    (PIDController.compute
        (PIDController.init
          (PIDController.construct 2 (1/2) (1/10) 10 (-1023) 1023)).2 500).2.integral
        = 5/2 ∧
    (500 - (PIDController.init
        (PIDController.construct 2 (1/2) (1/10) 10 (-1023) 1023)).2.prev_error) /
      (PIDController.init
        (PIDController.construct 2 (1/2) (1/10) 10 (-1023) 1023)).2.dt = 50000 ∧
    (2 : ℚ) * 500 + 5/2 + (1/10 : ℚ) * 50000 = 12005/2 ∧
    applyLimits (12005/2) (-1023) 1023 = 1023 ∧
    (PIDController.compute
        (PIDController.init
          (PIDController.construct 2 (1/2) (1/10) 10 (-1023) 1023)).2 500).1 = 1023 ∧
    (PIDController.compute
        (PIDController.init
          (PIDController.construct 2 (1/2) (1/10) 10 (-1023) 1023)).2 500).2.output
        = 1023 := by
  refine ⟨?_, ?_, ?_, ?_, ?_, ?_, ?_⟩ <;>
    norm_num [PIDController.construct, PIDController.init, PIDController.reset,
      PIDController.compute, applyLimits]

/-- Claim C9: `PIDController::setAntiWindupLimit` stores
`min |limit| |max_output|` (silently capping large requests), while
`PIController::setAntiWindupLimit` stores `|limit|` unmodified; both
immediately re-clamp the current integral to the new bound. -/
theorem C9_setAntiWindupLimit (sPI : PIState) (sPID : PIDState) (limit : ℚ) :
    ((PIDController.setAntiWindupLimit sPID limit).anti_windup
        = min |limit| |sPID.max_output|) ∧
    ((PIDController.setAntiWindupLimit sPID limit).integral
        = applyLimits sPID.integral (-(min |limit| |sPID.max_output|))
            (min |limit| |sPID.max_output|)) ∧
    ((PIController.setAntiWindupLimit sPI limit).anti_windup = |limit|) ∧
    ((PIController.setAntiWindupLimit sPI limit).integral
        = applyLimits sPI.integral (-|limit|) |limit|) := by
  have hmin : (if |limit| > |sPID.max_output| then |sPID.max_output| else |limit|)
      = min |limit| |sPID.max_output| := by
    split_ifs with h
    · exact (min_eq_right (le_of_lt h)).symm
    · exact (min_eq_left (not_lt.mp h)).symm
  refine ⟨?_, ?_, rfl, rfl⟩
  · show (if |limit| > |sPID.max_output| then |sPID.max_output| else |limit|)
        = min |limit| |sPID.max_output|
    exact hmin
  · show applyLimits sPID.integral
        (-(if |limit| > |sPID.max_output| then |sPID.max_output| else |limit|))
        (if |limit| > |sPID.max_output| then |sPID.max_output| else |limit|)
        = applyLimits sPID.integral (-(min |limit| |sPID.max_output|))
            (min |limit| |sPID.max_output|)
    rw [hmin]

/-!
The EEPROM calibration manager (version 2.0, `src/main/PIController.cpp`):
`MAX_SENSORS = 8`, `CALIBRATION_VERSION = 2`, `CALIBRATION_MAGIC = 0xCAFE`,
packed 40-byte record, rotate-add checksum, five-layer validator.
-/

/-- `EEPROMCalibrationManager::ErrorCode`. -/
inductive ErrorCode where
  | SUCCESS
  | EEPROM_NOT_READY
  | INVALID_SENSOR_COUNT
  | INSUFFICIENT_SPACE
  | NO_VALID_DATA
  | MAGIC_NUMBER_MISMATCH
  | VERSION_MISMATCH
  | SENSOR_COUNT_MISMATCH
  | CHECKSUM_FAILED
  | INVALID_CALIBRATION_RANGE
  | ADC_RANGE_EXCEEDED
  | EEPROM_WRITE_FAILED
  | EEPROM_COMMIT_FAILED
  | VERIFICATION_FAILED
  | NULL_POINTER_ERROR
  deriving DecidableEq, Repr

/-- `CALIBRATION_MAGIC = 0xCAFE`. -/
def CALIBRATION_MAGIC : Nat := 0xCAFE

/-- `CALIBRATION_VERSION = 2` (version 2.0 manager). -/
def CALIBRATION_VERSION : Nat := 2

/-- `MAX_SENSORS = 8` (version 2.0 manager). -/
def MAX_SENSORS : Nat := 8

/-- The packed `CalibrationData` struct. The `minimum`/`maximum` arrays are
functions on sensor index; only indices `0..7` correspond to the C arrays. -/
structure CalibrationData where
  magic : Nat
  version : Nat
  sensorCount : Nat
  minimum : Nat → Nat
  maximum : Nat → Nat
  checksum : Nat

/-- One 32-bit left rotation by one bit, `(x << 1) | (x >> 31)` on `uint32_t`
(valid for `x < 2^32`, where the two disjuncts cannot overlap). -/
def rotl1 (x : Nat) : Nat := 2 * x % 4294967296 + x / 2147483648

/-- One step of `calculateChecksum`: 32-bit add then rotate left. -/
def chkStep (acc v : Nat) : Nat := rotl1 ((acc + v) % 4294967296)

/-- The field values `calculateChecksum` folds over, in source order:
metadata, then the interleaved `minimum[i]`/`maximum[i]` pairs for all
`MAX_SENSORS` slots. -/
def chkVals (d : CalibrationData) : List Nat :=
  [d.magic, d.version, d.sensorCount,
   d.minimum 0, d.maximum 0, d.minimum 1, d.maximum 1,
   d.minimum 2, d.maximum 2, d.minimum 3, d.maximum 3,
   d.minimum 4, d.maximum 4, d.minimum 5, d.maximum 5,
   d.minimum 6, d.maximum 6, d.minimum 7, d.maximum 7]

/-- `EEPROMCalibrationManager::calculateChecksum`: rotate-add over every
field except the checksum itself. -/
def calculateChecksum (d : CalibrationData) : Nat :=
  (chkVals d).foldl chkStep 0

/-- Layer 5 of the validator: the per-sensor semantic scan, in index order,
first failure wins (`min >= max`, then `max > 4095`). -/
def semanticCheck (d : CalibrationData) (i : Nat) : Nat → ErrorCode
  | 0 => .SUCCESS
  | n + 1 =>
    if d.minimum i ≥ d.maximum i then .INVALID_CALIBRATION_RANGE
    else if d.maximum i > 4095 then .ADC_RANGE_EXCEEDED
    else semanticCheck d (i + 1) n

/-- `EEPROMCalibrationManager::validateCalibrationData`: the five ordered,
short-circuiting layers (magic, version, sensor count, checksum over a copy
with a zeroed checksum field, semantic ranges). -/
def validateCalibrationData (sc : Nat) (d : CalibrationData) : ErrorCode :=
  if d.magic ≠ CALIBRATION_MAGIC then .MAGIC_NUMBER_MISMATCH
  else if d.version ≠ CALIBRATION_VERSION then .VERSION_MISMATCH
  else if d.sensorCount ≠ sc then .SENSOR_COUNT_MISMATCH
  else if d.checksum ≠ calculateChecksum { d with checksum := 0 } then .CHECKSUM_FAILED
  else semanticCheck d 0 sc

/-- Byte `n` of a byte list (0 beyond the end). -/
def byteAt (l : List Nat) (n : Nat) : Nat := l.getD n 0

/-- The packed little-endian byte image of a record: magic (2), version (1),
sensorCount (1), minimum[8] (16), maximum[8] (16), checksum (4). -/
def serialize (d : CalibrationData) : List Nat :=
  [d.magic % 256, d.magic / 256 % 256, d.version % 256, d.sensorCount % 256,
   d.minimum 0 % 256, d.minimum 0 / 256 % 256,
   d.minimum 1 % 256, d.minimum 1 / 256 % 256,
   d.minimum 2 % 256, d.minimum 2 / 256 % 256,
   d.minimum 3 % 256, d.minimum 3 / 256 % 256,
   d.minimum 4 % 256, d.minimum 4 / 256 % 256,
   d.minimum 5 % 256, d.minimum 5 / 256 % 256,
   d.minimum 6 % 256, d.minimum 6 / 256 % 256,
   d.minimum 7 % 256, d.minimum 7 / 256 % 256,
   d.maximum 0 % 256, d.maximum 0 / 256 % 256,
   d.maximum 1 % 256, d.maximum 1 / 256 % 256,
   d.maximum 2 % 256, d.maximum 2 / 256 % 256,
   d.maximum 3 % 256, d.maximum 3 / 256 % 256,
   d.maximum 4 % 256, d.maximum 4 / 256 % 256,
   d.maximum 5 % 256, d.maximum 5 / 256 % 256,
   d.maximum 6 % 256, d.maximum 6 / 256 % 256,
   d.maximum 7 % 256, d.maximum 7 / 256 % 256,
   d.checksum % 256, d.checksum / 256 % 256,
   d.checksum / 65536 % 256, d.checksum / 16777216 % 256]

/-- Reading the packed bytes back into a record (the inverse reinterpret
cast performed by `loadCalibrationData`). -/
def deserialize (bs : List Nat) : CalibrationData :=
  { magic := byteAt bs 0 + 256 * byteAt bs 1
    version := byteAt bs 2
    sensorCount := byteAt bs 3
    minimum := fun i =>
      if i < 8 then byteAt bs (4 + 2 * i) + 256 * byteAt bs (5 + 2 * i) else 0
    maximum := fun i =>
      if i < 8 then byteAt bs (20 + 2 * i) + 256 * byteAt bs (21 + 2 * i) else 0
    checksum := byteAt bs 36 + 256 * byteAt bs 37
      + 65536 * byteAt bs 38 + 16777216 * byteAt bs 39 }

/-- The byte-addressable persistent store. A faithful store reads back what
was written; `commitOk` says whether `EEPROM.commit()` succeeds. -/
structure EEPROMStore where
  mem : Nat → Nat
  commitOk : Bool

/-- `EEPROM.write(addr, value)`. -/
def eepromWrite (s : EEPROMStore) (a v : Nat) : EEPROMStore :=
  { s with mem := fun x => if x = a then v else s.mem x }

/-- The sequential byte-write loop of `saveCalibration`/`clearCalibration`. -/
def writeBytes (s : EEPROMStore) (a : Nat) : List Nat → EEPROMStore
  | [] => s
  | v :: rest => writeBytes (eepromWrite s a v) (a + 1) rest

/-- The sequential byte-read loop of `loadCalibrationData`. -/
def readBytes (s : EEPROMStore) (a n : Nat) : List Nat :=
  (List.range n).map fun i => s.mem (a + i)

/-- The manager state relevant to save/load/has-valid
(`sensorCount_`, `startAddress_`, `initialized_`, `lastError_`). -/
structure Manager where
  sensorCount : Nat
  startAddress : Nat
  initialized : Bool
  lastError : ErrorCode

/-- `EEPROMCalibrationManager::loadCalibrationData`: read the record's bytes
from the store and run the full validator; no manager state is written. -/
def loadCalibrationData (m : Manager) (s : EEPROMStore) :
    ErrorCode × CalibrationData :=
  (validateCalibrationData m.sensorCount
      (deserialize (readBytes s m.startAddress 40)),
   deserialize (readBytes s m.startAddress 40))

/-- The record built by `saveCalibration`: zero-initialized, metadata set,
the first `sensorCount` bounds copied, unused slots zero-filled, and the
checksum computed last. -/
def buildRecord (sc : Nat) (qmin qmax : Nat → Nat) : CalibrationData :=
  let d0 : CalibrationData :=
    { magic := CALIBRATION_MAGIC, version := CALIBRATION_VERSION,
      sensorCount := sc,
      minimum := fun i => if i < sc then qmin i else 0,
      maximum := fun i => if i < sc then qmax i else 0,
      checksum := 0 }
  { d0 with checksum := calculateChecksum d0 }

/-- The input-validation scan of `saveCalibration`: at least one sensor with
`min < max <= 4095`. -/
def hasValidData (sc : Nat) (qmin qmax : Nat → Nat) : Bool :=
  (List.range sc).any fun i => decide (qmin i < qmax i) && decide (qmax i ≤ 4095)

/-- The commit/read-back/compare tail of `saveCalibration`, applied to the
record `d` that was written and the post-write store `s1`. -/
def saveCommitVerify (m : Manager) (d : CalibrationData) (s1 : EEPROMStore) :
    Bool × Manager × EEPROMStore :=
  if s1.commitOk = false then
    (false, { m with lastError := .EEPROM_COMMIT_FAILED }, s1)
  else if (loadCalibrationData m s1).1 ≠ .SUCCESS then
    (false, { m with lastError := .VERIFICATION_FAILED }, s1)
  else if (loadCalibrationData m s1).2.magic ≠ d.magic
      ∨ (loadCalibrationData m s1).2.version ≠ d.version
      ∨ (loadCalibrationData m s1).2.sensorCount ≠ d.sensorCount
      ∨ (loadCalibrationData m s1).2.checksum ≠ d.checksum then
    (false, { m with lastError := .VERIFICATION_FAILED }, s1)
  else
    (true, { m with lastError := .SUCCESS }, s1)

/-- `EEPROMCalibrationManager::saveCalibration`: readiness check, input
scan, record build, byte write, then commit, read-back validation and field
comparison, with the source's error codes. -/
def saveCalibration (m : Manager) (s : EEPROMStore) (qmin qmax : Nat → Nat) :
    Bool × Manager × EEPROMStore :=
  if m.initialized = false then
    (false, { m with lastError := .EEPROM_NOT_READY }, s)
  else if hasValidData m.sensorCount qmin qmax = false then
    (false, { m with lastError := .NO_VALID_DATA }, s)
  else
    saveCommitVerify m (buildRecord m.sensorCount qmin qmax)
      (writeBytes s m.startAddress (serialize (buildRecord m.sensorCount qmin qmax)))

/-- `EEPROMCalibrationManager::loadCalibration`: read and validate, and only
on `SUCCESS` copy the first `sensorCount` bounds into the destination. -/
def loadCalibration (m : Manager) (s : EEPROMStore) (qmin qmax : Nat → Nat) :
    Bool × Manager × (Nat → Nat) × (Nat → Nat) :=
  if m.initialized = false then
    (false, { m with lastError := .EEPROM_NOT_READY }, qmin, qmax)
  else if (loadCalibrationData m s).1 ≠ .SUCCESS then
    (false, { m with lastError := (loadCalibrationData m s).1 }, qmin, qmax)
  else
    (true, { m with lastError := .SUCCESS },
     fun i => if i < m.sensorCount then (loadCalibrationData m s).2.minimum i
       else qmin i,
     fun i => if i < m.sensorCount then (loadCalibrationData m s).2.maximum i
       else qmax i)

/-- `EEPROMCalibrationManager::hasValidCalibration`: a pure predicate; the
method body performs no assignment to any member, so the manager state is
returned unchanged. -/
def hasValidCalibration (m : Manager) (s : EEPROMStore) : Bool × Manager :=
  if m.initialized = false then (false, m)
  else (decide ((loadCalibrationData m s).1 = .SUCCESS), m)

/-- Writing bytes never touches the commit flag. -/
theorem writeBytes_commitOk (l : List Nat) : ∀ (s : EEPROMStore) (a : Nat),
    (writeBytes s a l).commitOk = s.commitOk := by
  induction l with
  | nil => intro s a; rfl
  | cons v rest ih => intro s a; exact ih (eepromWrite s a v) (a + 1)

/-- Writing at addresses `>= a` leaves lower addresses untouched. -/
theorem writeBytes_mem_lt (l : List Nat) : ∀ (s : EEPROMStore) (a x : Nat),
    x < a → (writeBytes s a l).mem x = s.mem x := by
  induction l with
  | nil => intro s a x _; rfl
  | cons v rest ih =>
    intro s a x hx
    have h1 : (writeBytes (eepromWrite s a v) (a + 1) rest).mem x
        = (eepromWrite s a v).mem x := ih _ _ _ (by omega)
    have h2 : (eepromWrite s a v).mem x = s.mem x := by
      simp [eepromWrite]
      intro h
      omega
    exact h1.trans h2

/-- After a sequential write of `l` at `a`, address `a + j` holds `l[j]`. -/
theorem writeBytes_mem_get (l : List Nat) : ∀ (s : EEPROMStore) (a j : Nat),
    j < l.length → (writeBytes s a l).mem (a + j) = l.getD j 0 := by
  induction l with
  | nil => intro s a j hj; simp at hj
  | cons v rest ih =>
    intro s a j hj
    match j with
    | 0 =>
      have h1 : (writeBytes (eepromWrite s a v) (a + 1) rest).mem (a + 0)
          = (eepromWrite s a v).mem (a + 0) := writeBytes_mem_lt _ _ _ _ (by omega)
      rw [show writeBytes s a (v :: rest)
            = writeBytes (eepromWrite s a v) (a + 1) rest from rfl, h1]
      simp [eepromWrite]
    | j + 1 =>
      have h1 : a + (j + 1) = (a + 1) + j := by omega
      rw [show writeBytes s a (v :: rest)
            = writeBytes (eepromWrite s a v) (a + 1) rest from rfl, h1,
          ih _ _ _ (by simpa using hj)]
      rfl

/-- Reading back a freshly written block returns exactly that block. -/
theorem readBytes_writeBytes (s : EEPROMStore) (a : Nat) (l : List Nat) :
    readBytes (writeBytes s a l) a l.length = l := by
  apply List.ext_getElem
  · simp [readBytes]
  · intro i h1 h2
    simp only [readBytes, List.getElem_map, List.getElem_range]
    rw [writeBytes_mem_get l s a i h2, List.getD_eq_getElem l 0 h2]

/-- One checksum step stays below `2^32`. -/
theorem chkStep_lt (acc v : Nat) : chkStep acc v < 4294967296 := by
  unfold chkStep rotl1
  omega

/-- The checksum fold stays below `2^32`. -/
theorem foldl_chkStep_lt (l : List Nat) : ∀ acc : Nat, acc < 4294967296 →
    l.foldl chkStep acc < 4294967296 := by
  induction l with
  | nil => intro acc h; exact h
  | cons v rest ih => intro acc _; exact ih (chkStep acc v) (chkStep_lt acc v)

/-- `calculateChecksum` is a 32-bit value. -/
theorem calculateChecksum_lt (d : CalibrationData) :
    calculateChecksum d < 4294967296 :=
  foldl_chkStep_lt _ 0 (by norm_num)

/-- The checksum ignores the checksum field itself. -/
theorem calculateChecksum_set_checksum (d : CalibrationData) (c : Nat) :
    calculateChecksum { d with checksum := c } = calculateChecksum d := rfl

/-- The checksum only depends on the fields `chkVals` lists. -/
theorem calculateChecksum_congr (d1 d2 : CalibrationData)
    (hm : d1.magic = d2.magic) (hv : d1.version = d2.version)
    (hs : d1.sensorCount = d2.sensorCount)
    (hmin : ∀ i, i < 8 → d1.minimum i = d2.minimum i)
    (hmax : ∀ i, i < 8 → d1.maximum i = d2.maximum i) :
    calculateChecksum d1 = calculateChecksum d2 := by
  unfold calculateChecksum chkVals
  rw [hm, hv, hs,
    hmin 0 (by omega), hmax 0 (by omega), hmin 1 (by omega), hmax 1 (by omega),
    hmin 2 (by omega), hmax 2 (by omega), hmin 3 (by omega), hmax 3 (by omega),
    hmin 4 (by omega), hmax 4 (by omega), hmin 5 (by omega), hmax 5 (by omega),
    hmin 6 (by omega), hmax 6 (by omega), hmin 7 (by omega), hmax 7 (by omega)]

/-- The two bytes holding `minimum[i]` in the packed image. -/
theorem serialize_min_bytes (d : CalibrationData) (i : Nat) (hi : i < 8) :
    byteAt (serialize d) (4 + 2 * i) = d.minimum i % 256 ∧
    byteAt (serialize d) (5 + 2 * i) = d.minimum i / 256 % 256 := by
  interval_cases i <;> exact ⟨rfl, rfl⟩

/-- The two bytes holding `maximum[i]` in the packed image. -/
theorem serialize_max_bytes (d : CalibrationData) (i : Nat) (hi : i < 8) :
    byteAt (serialize d) (20 + 2 * i) = d.maximum i % 256 ∧
    byteAt (serialize d) (21 + 2 * i) = d.maximum i / 256 % 256 := by
  interval_cases i <;> exact ⟨rfl, rfl⟩

/-- Serialization followed by deserialization restores every field of an
in-range record. -/
theorem deserialize_serialize (d : CalibrationData)
    (hm : d.magic < 65536) (hv : d.version < 256) (hs : d.sensorCount < 256)
    (hmin : ∀ i, i < 8 → d.minimum i < 65536)
    (hmax : ∀ i, i < 8 → d.maximum i < 65536)
    (hc : d.checksum < 4294967296) :
    (deserialize (serialize d)).magic = d.magic ∧
    (deserialize (serialize d)).version = d.version ∧
    (deserialize (serialize d)).sensorCount = d.sensorCount ∧
    (∀ i, i < 8 → (deserialize (serialize d)).minimum i = d.minimum i) ∧
    (∀ i, i < 8 → (deserialize (serialize d)).maximum i = d.maximum i) ∧
    (deserialize (serialize d)).checksum = d.checksum := by
  refine ⟨?_, ?_, ?_, ?_, ?_, ?_⟩
  · show d.magic % 256 + 256 * (d.magic / 256 % 256) = d.magic
    omega
  · show d.version % 256 = d.version
    omega
  · show d.sensorCount % 256 = d.sensorCount
    omega
  · intro i hi
    have h := serialize_min_bytes d i hi
    have hb := hmin i hi
    show (if i < 8 then
        byteAt (serialize d) (4 + 2 * i) + 256 * byteAt (serialize d) (5 + 2 * i)
      else 0) = d.minimum i
    rw [if_pos hi, h.1, h.2]
    omega
  · intro i hi
    have h := serialize_max_bytes d i hi
    have hb := hmax i hi
    show (if i < 8 then
        byteAt (serialize d) (20 + 2 * i) + 256 * byteAt (serialize d) (21 + 2 * i)
      else 0) = d.maximum i
    rw [if_pos hi, h.1, h.2]
    omega
  · show d.checksum % 256 + 256 * (d.checksum / 256 % 256)
        + 65536 * (d.checksum / 65536 % 256)
        + 16777216 * (d.checksum / 16777216 % 256) = d.checksum
    omega

/-- A block of semantically valid sensors passes the layer-5 scan. -/
theorem semanticCheck_success (d : CalibrationData) :
    ∀ (n i : Nat),
      (∀ k, i ≤ k → k < i + n → d.minimum k < d.maximum k ∧ d.maximum k ≤ 4095) →
      semanticCheck d i n = .SUCCESS := by
  intro n
  induction n with
  | zero => intro i _; rfl
  | succ n ih =>
    intro i h
    have hk := h i (le_refl i) (by omega)
    unfold semanticCheck
    rw [if_neg (by omega), if_neg (by omega)]
    exact ih (i + 1) fun k hk1 hk2 => h k (by omega) (by omega)

/-- Claim C7: the validator applies its five layers in the fixed order
magic, version, sensor count, checksum, semantic ranges, and
short-circuits: each outcome is forced by the earliest failing layer,
independently of all later fields (in particular a magic or version
mismatch is reported without the checksum mattering, and a checksum
mismatch is reported before any semantic range check). -/
theorem C7_validator_order (sc : Nat) (d : CalibrationData) :
    (d.magic ≠ CALIBRATION_MAGIC →
      validateCalibrationData sc d = .MAGIC_NUMBER_MISMATCH) ∧
    (d.magic = CALIBRATION_MAGIC → d.version ≠ CALIBRATION_VERSION →
      validateCalibrationData sc d = .VERSION_MISMATCH) ∧
    (d.magic = CALIBRATION_MAGIC → d.version = CALIBRATION_VERSION →
      d.sensorCount ≠ sc →
      validateCalibrationData sc d = .SENSOR_COUNT_MISMATCH) ∧
    (d.magic = CALIBRATION_MAGIC → d.version = CALIBRATION_VERSION →
      d.sensorCount = sc →
      d.checksum ≠ calculateChecksum { d with checksum := 0 } →
      validateCalibrationData sc d = .CHECKSUM_FAILED) ∧
    (d.magic = CALIBRATION_MAGIC → d.version = CALIBRATION_VERSION →
      d.sensorCount = sc →
      d.checksum = calculateChecksum { d with checksum := 0 } →
      validateCalibrationData sc d = semanticCheck d 0 sc) := by
  refine ⟨?_, ?_, ?_, ?_, ?_⟩
  · intro h1
    unfold validateCalibrationData
    rw [if_pos h1]
  · intro h1 h2
    unfold validateCalibrationData
    rw [if_neg (by simp [h1]), if_pos h2]
  · intro h1 h2 h3
    unfold validateCalibrationData
    rw [if_neg (by simp [h1]), if_neg (by simp [h2]), if_pos h3]
  · intro h1 h2 h3 h4
    unfold validateCalibrationData
    rw [if_neg (by simp [h1]), if_neg (by simp [h2]), if_neg (by simp [h3]),
      if_pos h4]
  · intro h1 h2 h3 h4
    unfold validateCalibrationData
    rw [if_neg (by simp [h1]), if_neg (by simp [h2]), if_neg (by simp [h3]),
      if_neg (by simp [h4])]

/-- A record with a wrong magic number but otherwise arbitrary content,
including an inconsistent checksum and invalid ranges. -/
def c7bad : CalibrationData :=
  { magic := 0, version := 7, sensorCount := 3,
    minimum := fun _ => 9999, maximum := fun _ => 0, checksum := 12345 }

/-- Witness for C7: the bad-magic record is rejected as a magic mismatch
even though its checksum and ranges are also wrong. -/
theorem C7_validator_order_witness :
    validateCalibrationData 8 c7bad = .MAGIC_NUMBER_MISMATCH :=
  (C7_validator_order 8 c7bad).1 (by decide)

/-- Round-trip behaviour of a record built by `saveCalibration` from
semantically valid bounds: it re-validates to `SUCCESS` after the
serialize/deserialize cycle, and every active-sensor bound survives. -/
theorem validate_buildRecord_roundtrip (sc : Nat) (qmin qmax : Nat → Nat)
    (h8 : sc ≤ 8) (hb : ∀ i, i < sc → qmin i < qmax i ∧ qmax i ≤ 4095) :
    validateCalibrationData sc
        (deserialize (serialize (buildRecord sc qmin qmax))) = .SUCCESS ∧
    (∀ i, i < sc →
      (deserialize (serialize (buildRecord sc qmin qmax))).minimum i = qmin i ∧
      (deserialize (serialize (buildRecord sc qmin qmax))).maximum i = qmax i) ∧
    (deserialize (serialize (buildRecord sc qmin qmax))).magic
        = CALIBRATION_MAGIC ∧
    (deserialize (serialize (buildRecord sc qmin qmax))).version
        = CALIBRATION_VERSION ∧
    (deserialize (serialize (buildRecord sc qmin qmax))).sensorCount = sc ∧
    (deserialize (serialize (buildRecord sc qmin qmax))).checksum
        = (buildRecord sc qmin qmax).checksum := by
  obtain ⟨e1, e2, e3, e4, e5, e6⟩ := deserialize_serialize (buildRecord sc qmin qmax)
    (by show CALIBRATION_MAGIC < 65536; norm_num [CALIBRATION_MAGIC])
    (by show CALIBRATION_VERSION < 256; norm_num [CALIBRATION_VERSION])
    (by show sc < 256; omega)
    (by intro i _
        show (if i < sc then qmin i else 0) < 65536
        split_ifs with h
        · have := hb i h; omega
        · omega)
    (by intro i _
        show (if i < sc then qmax i else 0) < 65536
        split_ifs with h
        · have := hb i h; omega
        · omega)
    (calculateChecksum_lt (buildRecord sc qmin qmax))
  have hmagic : (buildRecord sc qmin qmax).magic = CALIBRATION_MAGIC := rfl
  have hver : (buildRecord sc qmin qmax).version = CALIBRATION_VERSION := rfl
  have hcount : (buildRecord sc qmin qmax).sensorCount = sc := rfl
  have hcs0 : (buildRecord sc qmin qmax).checksum
      = calculateChecksum (buildRecord sc qmin qmax) := rfl
  set rt := deserialize (serialize (buildRecord sc qmin qmax)) with hrt
  have hminq : ∀ i, i < sc → rt.minimum i = qmin i := by
    intro i hi
    rw [e4 i (by omega)]
    show (if i < sc then qmin i else 0) = qmin i
    rw [if_pos hi]
  have hmaxq : ∀ i, i < sc → rt.maximum i = qmax i := by
    intro i hi
    rw [e5 i (by omega)]
    show (if i < sc then qmax i else 0) = qmax i
    rw [if_pos hi]
  have hcs : calculateChecksum { rt with checksum := 0 }
      = calculateChecksum (buildRecord sc qmin qmax) := by
    rw [calculateChecksum_set_checksum rt 0]
    exact calculateChecksum_congr rt _ e1 e2 e3 e4 e5
  refine ⟨?_, fun i hi => ⟨hminq i hi, hmaxq i hi⟩, e1.trans hmagic,
    e2.trans hver, e3.trans hcount, e6⟩
  unfold validateCalibrationData
  rw [if_neg (by simp [e1, hmagic]), if_neg (by simp [e2, hver]),
    if_neg (by simp [e3, hcount]), if_neg (by simp [e6, hcs, hcs0])]
  apply semanticCheck_success
  intro k hk0 hk1
  have hk : k < sc := by omega
  rw [hminq k hk, hmaxq k hk]
  exact hb k hk

/-- With an initialized manager, a faithful committing store, a sensor count
in range and semantically valid bounds, `saveCalibration` succeeds and
leaves the serialized record in the store. -/
theorem saveCalibration_success (m : Manager) (s : EEPROMStore)
    (qmin qmax : Nat → Nat)
    (hinit : m.initialized = true) (h1 : 1 ≤ m.sensorCount)
    (h8 : m.sensorCount ≤ 8) (hcommit : s.commitOk = true)
    (hb : ∀ i, i < m.sensorCount → qmin i < qmax i ∧ qmax i ≤ 4095) :
    saveCalibration m s qmin qmax
      = (true, { m with lastError := .SUCCESS },
          writeBytes s m.startAddress
            (serialize (buildRecord m.sensorCount qmin qmax))) := by
  have hvd : hasValidData m.sensorCount qmin qmax = true := by
    unfold hasValidData
    rw [List.any_eq_true]
    refine ⟨0, List.mem_range.mpr (by omega), ?_⟩
    have h0 := hb 0 (by omega)
    simp [h0.1, h0.2]
  obtain ⟨hval, hcopy, hmg, hvr, hsc, hck⟩ :=
    validate_buildRecord_roundtrip m.sensorCount qmin qmax h8 hb
  set D := buildRecord m.sensorCount qmin qmax with hD
  set s1x := writeBytes s m.startAddress (serialize D) with hs1x
  have hck1 : s1x.commitOk = true := by
    rw [hs1x, writeBytes_commitOk]
    exact hcommit
  have hrb : readBytes s1x m.startAddress 40 = serialize D := by
    have hlen : (serialize D).length = 40 := rfl
    rw [hs1x, ← hlen]
    exact readBytes_writeBytes s m.startAddress _
  have hload : loadCalibrationData m s1x
      = (.SUCCESS, deserialize (serialize D)) := by
    unfold loadCalibrationData
    rw [hrb, hval]
  have hbm : D.magic = CALIBRATION_MAGIC := rfl
  have hbv : D.version = CALIBRATION_VERSION := rfl
  have hbs : D.sensorCount = m.sensorCount := rfl
  unfold saveCalibration
  rw [if_neg (by simp [hinit]), if_neg (by simp [hvd])]
  show saveCommitVerify m D s1x = (true, { m with lastError := .SUCCESS }, s1x)
  unfold saveCommitVerify
  rw [if_neg (by simp [hck1]), if_neg (by simp [hload]),
    if_neg (by simp [hload, hmg, hvr, hsc, hck, hbm, hbv, hbs])]

/-- Claim C2: for bounds whose first `sensorCount` entries all satisfy
`minimum[i] < maximum[i] <= 4095`, saving on a faithful store succeeds and
a subsequent `loadCalibration` into a fresh destination returns `true` and
reproduces exactly the original active-sensor bounds. -/
theorem C2_calibration_roundtrip (m : Manager) (s : EEPROMStore)
    (qmin qmax qmin2 qmax2 : Nat → Nat)
    (hinit : m.initialized = true) (h1 : 1 ≤ m.sensorCount)
    (h8 : m.sensorCount ≤ 8) (hcommit : s.commitOk = true)
    (hb : ∀ i, i < m.sensorCount → qmin i < qmax i ∧ qmax i ≤ 4095) :
    (saveCalibration m s qmin qmax).1 = true ∧
    (loadCalibration (saveCalibration m s qmin qmax).2.1
      (saveCalibration m s qmin qmax).2.2 qmin2 qmax2).1 = true ∧
    (∀ i, i < m.sensorCount →
      (loadCalibration (saveCalibration m s qmin qmax).2.1
        (saveCalibration m s qmin qmax).2.2 qmin2 qmax2).2.2.1 i = qmin i ∧
      (loadCalibration (saveCalibration m s qmin qmax).2.1
        (saveCalibration m s qmin qmax).2.2 qmin2 qmax2).2.2.2 i = qmax i) := by
  have hsave := saveCalibration_success m s qmin qmax hinit h1 h8 hcommit hb
  obtain ⟨hval, hcopy, -, -, -, -⟩ :=
    validate_buildRecord_roundtrip m.sensorCount qmin qmax h8 hb
  set D := buildRecord m.sensorCount qmin qmax with hD
  set s1x := writeBytes s m.startAddress (serialize D) with hs1x
  set rt := deserialize (serialize D) with hrt
  have hrb : readBytes s1x m.startAddress 40 = serialize D := by
    have hlen : (serialize D).length = 40 := rfl
    rw [hs1x, ← hlen]
    exact readBytes_writeBytes s m.startAddress _
  have hload1 : loadCalibrationData { m with lastError := ErrorCode.SUCCESS } s1x
      = (.SUCCESS, rt) := by
    show (validateCalibrationData m.sensorCount
        (deserialize (readBytes s1x m.startAddress 40)),
      deserialize (readBytes s1x m.startAddress 40)) = (.SUCCESS, rt)
    rw [hrb, hval]
  have hfinal : loadCalibration { m with lastError := ErrorCode.SUCCESS } s1x
      qmin2 qmax2
      = (true, { m with lastError := ErrorCode.SUCCESS },
         fun i => if i < m.sensorCount then rt.minimum i else qmin2 i,
         fun i => if i < m.sensorCount then rt.maximum i else qmax2 i) := by
    unfold loadCalibration
    rw [hload1]
    rw [if_neg (by simp [hinit]), if_neg (by simp)]
  refine ⟨by rw [hsave], by rw [hsave, hfinal], ?_⟩
  intro i hi
  rw [hsave, hfinal]
  constructor
  · show (if i < m.sensorCount then rt.minimum i else qmin2 i) = qmin i
    rw [if_pos hi, (hcopy i hi).1]
  · show (if i < m.sensorCount then rt.maximum i else qmax2 i) = qmax i
    rw [if_pos hi, (hcopy i hi).2]

/-- A concrete initialized manager for eight sensors at address 0. -/
def m2w : Manager :=
  { sensorCount := 8, startAddress := 0, initialized := true,
    lastError := .SUCCESS }

/-- A concrete zeroed, committing store. -/
def s2w : EEPROMStore := { mem := fun _ => 0, commitOk := true }

/-- Witness for C2 at the spec's example bounds (min 100, max 3000 for all
eight sensors): the save succeeds and sensor 3 reads back exactly. -/
theorem C2_calibration_roundtrip_witness :
    (saveCalibration m2w s2w (fun _ => 100) (fun _ => 3000)).1 = true ∧
    (loadCalibration (saveCalibration m2w s2w (fun _ => 100) (fun _ => 3000)).2.1
      (saveCalibration m2w s2w (fun _ => 100) (fun _ => 3000)).2.2
      (fun _ => 0) (fun _ => 0)).2.2.1 3 = 100 :=
  ⟨(C2_calibration_roundtrip m2w s2w (fun _ => 100) (fun _ => 3000)
      (fun _ => 0) (fun _ => 0) rfl (by norm_num [m2w]) (by norm_num [m2w]) rfl
      (fun i _ => ⟨by norm_num, by norm_num⟩)).1,
   ((C2_calibration_roundtrip m2w s2w (fun _ => 100) (fun _ => 3000)
      (fun _ => 0) (fun _ => 0) rfl (by norm_num [m2w]) (by norm_num [m2w]) rfl
      (fun i _ => ⟨by norm_num, by norm_num⟩)).2.2 3 (by norm_num [m2w])).1⟩

/-- Flip bit `b` of byte `j` in a serialized record image. -/
def flipByteBit (l : List Nat) (j b : Nat) : List Nat :=
  l.set j (byteAt l j ^^^ 2 ^ b)

/-- Setting one byte leaves every other position unchanged. -/
theorem byteAt_set_ne : ∀ (l : List Nat) (i j v : Nat), i ≠ j →
    byteAt (l.set i v) j = byteAt l j := by
  intro l
  induction l with
  | nil => intro i j v _; rfl
  | cons a t ih =>
    intro i j v hij
    match i, j with
    | 0, 0 => exact absurd rfl hij
    | 0, j + 1 => rfl
    | i + 1, 0 => rfl
    | i + 1, j + 1 =>
      show byteAt (t.set i v) j = byteAt t j
      exact ih i j v (by omega)

/-- Setting a byte in range stores exactly that byte. -/
theorem byteAt_set_self : ∀ (l : List Nat) (i v : Nat), i < l.length →
    byteAt (l.set i v) i = v := by
  intro l
  induction l with
  | nil => intro i v h; simp at h
  | cons a t ih =>
    intro i v h
    match i with
    | 0 => rfl
    | i + 1 =>
      show byteAt (t.set i v) i = v
      exact ih i v (by simpa using h)

/-- `rotl1 x` splits the top bit off and doubles the rest. -/
theorem rotl1_eq (x : Nat) :
    rotl1 x = 2 * (x % 2147483648) + x / 2147483648 := by
  unfold rotl1
  rw [show (4294967296 : Nat) = 2 * 2147483648 from rfl, Nat.mul_mod_mul_left]

/-- A two-digit number in base two with digits `(b, a)` determines its
digits. -/
theorem two_digit_inj (a b c d : Nat) (hb : b < 2) (hd : d < 2)
    (hh : 2 * a + b = 2 * c + d) : a = c ∧ b = d := by
  omega

/-- `rotl1` is injective on 32-bit values. -/
theorem rotl1_inj (x y : Nat) (hx : x < 4294967296) (hy : y < 4294967296)
    (h : rotl1 x = rotl1 y) : x = y := by
  rw [rotl1_eq, rotl1_eq] at h
  have hxd : x / 2147483648 < 2 :=
    Nat.div_lt_of_lt_mul (lt_of_lt_of_eq hx (by norm_num))
  have hyd : y / 2147483648 < 2 :=
    Nat.div_lt_of_lt_mul (lt_of_lt_of_eq hy (by norm_num))
  obtain ⟨hmeq, hdeq⟩ := two_digit_inj (x % 2147483648) (x / 2147483648)
    (y % 2147483648) (y / 2147483648) hxd hyd h
  calc x = 2147483648 * (x / 2147483648) + x % 2147483648 :=
        (Nat.div_add_mod x 2147483648).symm
    _ = 2147483648 * (y / 2147483648) + y % 2147483648 := by rw [hmeq, hdeq]
    _ = y := Nat.div_add_mod y 2147483648

/-- With the same accumulator, different 32-bit summands give different
checksum steps. -/
theorem chkStep_val_ne (acc v1 v2 : Nat) (h1 : v1 < 4294967296)
    (h2 : v2 < 4294967296) (hne : v1 ≠ v2) :
    chkStep acc v1 ≠ chkStep acc v2 := by
  intro h
  have := rotl1_inj _ _ (Nat.mod_lt _ (by norm_num)) (Nat.mod_lt _ (by norm_num)) h
  omega

/-- With the same summand, different 32-bit accumulators give different
checksum steps. -/
theorem chkStep_acc_ne (a1 a2 v : Nat) (h1 : a1 < 4294967296)
    (h2 : a2 < 4294967296) (hne : a1 ≠ a2) :
    chkStep a1 v ≠ chkStep a2 v := by
  intro h
  have := rotl1_inj _ _ (Nat.mod_lt _ (by norm_num)) (Nat.mod_lt _ (by norm_num)) h
  omega

/-- Folding the same tail keeps distinct 32-bit accumulators distinct. -/
theorem foldl_chkStep_acc_ne (l : List Nat) : ∀ a1 a2 : Nat,
    a1 < 4294967296 → a2 < 4294967296 → a1 ≠ a2 →
    l.foldl chkStep a1 ≠ l.foldl chkStep a2 := by
  induction l with
  | nil => intro a1 a2 _ _ hne; exact hne
  | cons v rest ih =>
    intro a1 a2 h1 h2 hne
    exact ih (chkStep a1 v) (chkStep a2 v) (chkStep_lt _ _) (chkStep_lt _ _)
      (chkStep_acc_ne a1 a2 v h1 h2 hne)

/-- Replacing one 32-bit entry of the folded list by a different 32-bit
value changes the checksum fold. -/
theorem foldl_set_ne : ∀ (l : List Nat) (n x acc : Nat),
    acc < 4294967296 → n < l.length → x < 4294967296 →
    l.getD n 0 < 4294967296 → x ≠ l.getD n 0 →
    (l.set n x).foldl chkStep acc ≠ l.foldl chkStep acc := by
  intro l
  induction l with
  | nil => intro n x acc _ hn; simp at hn
  | cons v rest ih =>
    intro n x acc hacc hn hx hl hne
    match n with
    | 0 =>
      show (x :: rest).foldl chkStep acc ≠ (v :: rest).foldl chkStep acc
      show rest.foldl chkStep (chkStep acc x) ≠ rest.foldl chkStep (chkStep acc v)
      exact foldl_chkStep_acc_ne rest _ _ (chkStep_lt _ _) (chkStep_lt _ _)
        (chkStep_val_ne acc x v hx hl hne)
    | n + 1 =>
      show (v :: rest.set n x).foldl chkStep acc ≠ (v :: rest).foldl chkStep acc
      show (rest.set n x).foldl chkStep (chkStep acc v)
          ≠ rest.foldl chkStep (chkStep acc v)
      exact ih n x (chkStep acc v) (chkStep_lt _ _) (by simpa using hn) hx hl hne

/-- Flipping a bit changes the value. -/
theorem xor_flip_ne (x b : Nat) : x ^^^ 2 ^ b ≠ x := by
  intro h
  have h2 : x ^^^ (x ^^^ 2 ^ b) = x ^^^ x := by rw [h]
  rw [← Nat.xor_assoc, Nat.xor_self, Nat.zero_xor] at h2
  have h3 : 0 < 2 ^ b := pow_pos (by norm_num) b
  omega

/-- Flipping one of the low 8 bits of a byte stays below 256. -/
theorem xor_flip_lt (x b : Nat) (hx : x < 256) (hb : b < 8) :
    x ^^^ 2 ^ b < 256 := by
  have h1 : x < 2 ^ 8 := by omega
  have h2 : 2 ^ b < 2 ^ 8 := Nat.pow_lt_pow_right (by omega) hb
  have := Nat.xor_lt_two_pow h1 h2
  omega

/-- Two records agreeing everywhere except in `minimum i` (a 32-bit
difference) have different checksums. -/
theorem calculateChecksum_ne_min (r1 r2 : CalibrationData) (i : Nat)
    (hi : i < 8)
    (hm : r1.magic = r2.magic) (hv : r1.version = r2.version)
    (hs : r1.sensorCount = r2.sensorCount)
    (hminE : ∀ k, k < 8 → k ≠ i → r1.minimum k = r2.minimum k)
    (hmaxE : ∀ k, k < 8 → r1.maximum k = r2.maximum k)
    (h1 : r1.minimum i < 4294967296) (h2 : r2.minimum i < 4294967296)
    (hne : r1.minimum i ≠ r2.minimum i) :
    calculateChecksum r1 ≠ calculateChecksum r2 := by
  interval_cases i
  · have hL : chkVals r1 = (chkVals r2).set 3 (r1.minimum 0) := by
      unfold chkVals
      rw [hm,
        hv,
        hs,
        hminE 1 (by omega) (by omega),
        hminE 2 (by omega) (by omega),
        hminE 3 (by omega) (by omega),
        hminE 4 (by omega) (by omega),
        hminE 5 (by omega) (by omega),
        hminE 6 (by omega) (by omega),
        hminE 7 (by omega) (by omega),
        hmaxE 0 (by omega),
        hmaxE 1 (by omega),
        hmaxE 2 (by omega),
        hmaxE 3 (by omega),
        hmaxE 4 (by omega),
        hmaxE 5 (by omega),
        hmaxE 6 (by omega),
        hmaxE 7 (by omega)]
      rfl
    unfold calculateChecksum
    rw [hL]
    exact foldl_set_ne (chkVals r2) 3 (r1.minimum 0) 0 (by norm_num)
      (by simp [chkVals]) h1 h2 hne
  · have hL : chkVals r1 = (chkVals r2).set 5 (r1.minimum 1) := by
      unfold chkVals
      rw [hm,
        hv,
        hs,
        hminE 0 (by omega) (by omega),
        hminE 2 (by omega) (by omega),
        hminE 3 (by omega) (by omega),
        hminE 4 (by omega) (by omega),
        hminE 5 (by omega) (by omega),
        hminE 6 (by omega) (by omega),
        hminE 7 (by omega) (by omega),
        hmaxE 0 (by omega),
        hmaxE 1 (by omega),
        hmaxE 2 (by omega),
        hmaxE 3 (by omega),
        hmaxE 4 (by omega),
        hmaxE 5 (by omega),
        hmaxE 6 (by omega),
        hmaxE 7 (by omega)]
      rfl
    unfold calculateChecksum
    rw [hL]
    exact foldl_set_ne (chkVals r2) 5 (r1.minimum 1) 0 (by norm_num)
      (by simp [chkVals]) h1 h2 hne
  · have hL : chkVals r1 = (chkVals r2).set 7 (r1.minimum 2) := by
      unfold chkVals
      rw [hm,
        hv,
        hs,
        hminE 0 (by omega) (by omega),
        hminE 1 (by omega) (by omega),
        hminE 3 (by omega) (by omega),
        hminE 4 (by omega) (by omega),
        hminE 5 (by omega) (by omega),
        hminE 6 (by omega) (by omega),
        hminE 7 (by omega) (by omega),
        hmaxE 0 (by omega),
        hmaxE 1 (by omega),
        hmaxE 2 (by omega),
        hmaxE 3 (by omega),
        hmaxE 4 (by omega),
        hmaxE 5 (by omega),
        hmaxE 6 (by omega),
        hmaxE 7 (by omega)]
      rfl
    unfold calculateChecksum
    rw [hL]
    exact foldl_set_ne (chkVals r2) 7 (r1.minimum 2) 0 (by norm_num)
      (by simp [chkVals]) h1 h2 hne
  · have hL : chkVals r1 = (chkVals r2).set 9 (r1.minimum 3) := by
      unfold chkVals
      rw [hm,
        hv,
        hs,
        hminE 0 (by omega) (by omega),
        hminE 1 (by omega) (by omega),
        hminE 2 (by omega) (by omega),
        hminE 4 (by omega) (by omega),
        hminE 5 (by omega) (by omega),
        hminE 6 (by omega) (by omega),
        hminE 7 (by omega) (by omega),
        hmaxE 0 (by omega),
        hmaxE 1 (by omega),
        hmaxE 2 (by omega),
        hmaxE 3 (by omega),
        hmaxE 4 (by omega),
        hmaxE 5 (by omega),
        hmaxE 6 (by omega),
        hmaxE 7 (by omega)]
      rfl
    unfold calculateChecksum
    rw [hL]
    exact foldl_set_ne (chkVals r2) 9 (r1.minimum 3) 0 (by norm_num)
      (by simp [chkVals]) h1 h2 hne
  · have hL : chkVals r1 = (chkVals r2).set 11 (r1.minimum 4) := by
      unfold chkVals
      rw [hm,
        hv,
        hs,
        hminE 0 (by omega) (by omega),
        hminE 1 (by omega) (by omega),
        hminE 2 (by omega) (by omega),
        hminE 3 (by omega) (by omega),
        hminE 5 (by omega) (by omega),
        hminE 6 (by omega) (by omega),
        hminE 7 (by omega) (by omega),
        hmaxE 0 (by omega),
        hmaxE 1 (by omega),
        hmaxE 2 (by omega),
        hmaxE 3 (by omega),
        hmaxE 4 (by omega),
        hmaxE 5 (by omega),
        hmaxE 6 (by omega),
        hmaxE 7 (by omega)]
      rfl
    unfold calculateChecksum
    rw [hL]
    exact foldl_set_ne (chkVals r2) 11 (r1.minimum 4) 0 (by norm_num)
      (by simp [chkVals]) h1 h2 hne
  · have hL : chkVals r1 = (chkVals r2).set 13 (r1.minimum 5) := by
      unfold chkVals
      rw [hm,
        hv,
        hs,
        hminE 0 (by omega) (by omega),
        hminE 1 (by omega) (by omega),
        hminE 2 (by omega) (by omega),
        hminE 3 (by omega) (by omega),
        hminE 4 (by omega) (by omega),
        hminE 6 (by omega) (by omega),
        hminE 7 (by omega) (by omega),
        hmaxE 0 (by omega),
        hmaxE 1 (by omega),
        hmaxE 2 (by omega),
        hmaxE 3 (by omega),
        hmaxE 4 (by omega),
        hmaxE 5 (by omega),
        hmaxE 6 (by omega),
        hmaxE 7 (by omega)]
      rfl
    unfold calculateChecksum
    rw [hL]
    exact foldl_set_ne (chkVals r2) 13 (r1.minimum 5) 0 (by norm_num)
      (by simp [chkVals]) h1 h2 hne
  · have hL : chkVals r1 = (chkVals r2).set 15 (r1.minimum 6) := by
      unfold chkVals
      rw [hm,
        hv,
        hs,
        hminE 0 (by omega) (by omega),
        hminE 1 (by omega) (by omega),
        hminE 2 (by omega) (by omega),
        hminE 3 (by omega) (by omega),
        hminE 4 (by omega) (by omega),
        hminE 5 (by omega) (by omega),
        hminE 7 (by omega) (by omega),
        hmaxE 0 (by omega),
        hmaxE 1 (by omega),
        hmaxE 2 (by omega),
        hmaxE 3 (by omega),
        hmaxE 4 (by omega),
        hmaxE 5 (by omega),
        hmaxE 6 (by omega),
        hmaxE 7 (by omega)]
      rfl
    unfold calculateChecksum
    rw [hL]
    exact foldl_set_ne (chkVals r2) 15 (r1.minimum 6) 0 (by norm_num)
      (by simp [chkVals]) h1 h2 hne
  · have hL : chkVals r1 = (chkVals r2).set 17 (r1.minimum 7) := by
      unfold chkVals
      rw [hm,
        hv,
        hs,
        hminE 0 (by omega) (by omega),
        hminE 1 (by omega) (by omega),
        hminE 2 (by omega) (by omega),
        hminE 3 (by omega) (by omega),
        hminE 4 (by omega) (by omega),
        hminE 5 (by omega) (by omega),
        hminE 6 (by omega) (by omega),
        hmaxE 0 (by omega),
        hmaxE 1 (by omega),
        hmaxE 2 (by omega),
        hmaxE 3 (by omega),
        hmaxE 4 (by omega),
        hmaxE 5 (by omega),
        hmaxE 6 (by omega),
        hmaxE 7 (by omega)]
      rfl
    unfold calculateChecksum
    rw [hL]
    exact foldl_set_ne (chkVals r2) 17 (r1.minimum 7) 0 (by norm_num)
      (by simp [chkVals]) h1 h2 hne

/-- Two records agreeing everywhere except in `maximum i` (a 32-bit
difference) have different checksums. -/
theorem calculateChecksum_ne_max (r1 r2 : CalibrationData) (i : Nat)
    (hi : i < 8)
    (hm : r1.magic = r2.magic) (hv : r1.version = r2.version)
    (hs : r1.sensorCount = r2.sensorCount)
    (hminE : ∀ k, k < 8 → r1.minimum k = r2.minimum k)
    (hmaxE : ∀ k, k < 8 → k ≠ i → r1.maximum k = r2.maximum k)
    (h1 : r1.maximum i < 4294967296) (h2 : r2.maximum i < 4294967296)
    (hne : r1.maximum i ≠ r2.maximum i) :
    calculateChecksum r1 ≠ calculateChecksum r2 := by
  interval_cases i
  · have hL : chkVals r1 = (chkVals r2).set 4 (r1.maximum 0) := by
      unfold chkVals
      rw [hm,
        hv,
        hs,
        hminE 0 (by omega),
        hminE 1 (by omega),
        hminE 2 (by omega),
        hminE 3 (by omega),
        hminE 4 (by omega),
        hminE 5 (by omega),
        hminE 6 (by omega),
        hminE 7 (by omega),
        hmaxE 1 (by omega) (by omega),
        hmaxE 2 (by omega) (by omega),
        hmaxE 3 (by omega) (by omega),
        hmaxE 4 (by omega) (by omega),
        hmaxE 5 (by omega) (by omega),
        hmaxE 6 (by omega) (by omega),
        hmaxE 7 (by omega) (by omega)]
      rfl
    unfold calculateChecksum
    rw [hL]
    exact foldl_set_ne (chkVals r2) 4 (r1.maximum 0) 0 (by norm_num)
      (by simp [chkVals]) h1 h2 hne
  · have hL : chkVals r1 = (chkVals r2).set 6 (r1.maximum 1) := by
      unfold chkVals
      rw [hm,
        hv,
        hs,
        hminE 0 (by omega),
        hminE 1 (by omega),
        hminE 2 (by omega),
        hminE 3 (by omega),
        hminE 4 (by omega),
        hminE 5 (by omega),
        hminE 6 (by omega),
        hminE 7 (by omega),
        hmaxE 0 (by omega) (by omega),
        hmaxE 2 (by omega) (by omega),
        hmaxE 3 (by omega) (by omega),
        hmaxE 4 (by omega) (by omega),
        hmaxE 5 (by omega) (by omega),
        hmaxE 6 (by omega) (by omega),
        hmaxE 7 (by omega) (by omega)]
      rfl
    unfold calculateChecksum
    rw [hL]
    exact foldl_set_ne (chkVals r2) 6 (r1.maximum 1) 0 (by norm_num)
      (by simp [chkVals]) h1 h2 hne
  · have hL : chkVals r1 = (chkVals r2).set 8 (r1.maximum 2) := by
      unfold chkVals
      rw [hm,
        hv,
        hs,
        hminE 0 (by omega),
        hminE 1 (by omega),
        hminE 2 (by omega),
        hminE 3 (by omega),
        hminE 4 (by omega),
        hminE 5 (by omega),
        hminE 6 (by omega),
        hminE 7 (by omega),
        hmaxE 0 (by omega) (by omega),
        hmaxE 1 (by omega) (by omega),
        hmaxE 3 (by omega) (by omega),
        hmaxE 4 (by omega) (by omega),
        hmaxE 5 (by omega) (by omega),
        hmaxE 6 (by omega) (by omega),
        hmaxE 7 (by omega) (by omega)]
      rfl
    unfold calculateChecksum
    rw [hL]
    exact foldl_set_ne (chkVals r2) 8 (r1.maximum 2) 0 (by norm_num)
      (by simp [chkVals]) h1 h2 hne
  · have hL : chkVals r1 = (chkVals r2).set 10 (r1.maximum 3) := by
      unfold chkVals
      rw [hm,
        hv,
        hs,
        hminE 0 (by omega),
        hminE 1 (by omega),
        hminE 2 (by omega),
        hminE 3 (by omega),
        hminE 4 (by omega),
        hminE 5 (by omega),
        hminE 6 (by omega),
        hminE 7 (by omega),
        hmaxE 0 (by omega) (by omega),
        hmaxE 1 (by omega) (by omega),
        hmaxE 2 (by omega) (by omega),
        hmaxE 4 (by omega) (by omega),
        hmaxE 5 (by omega) (by omega),
        hmaxE 6 (by omega) (by omega),
        hmaxE 7 (by omega) (by omega)]
      rfl
    unfold calculateChecksum
    rw [hL]
    exact foldl_set_ne (chkVals r2) 10 (r1.maximum 3) 0 (by norm_num)
      (by simp [chkVals]) h1 h2 hne
  · have hL : chkVals r1 = (chkVals r2).set 12 (r1.maximum 4) := by
      unfold chkVals
      rw [hm,
        hv,
        hs,
        hminE 0 (by omega),
        hminE 1 (by omega),
        hminE 2 (by omega),
        hminE 3 (by omega),
        hminE 4 (by omega),
        hminE 5 (by omega),
        hminE 6 (by omega),
        hminE 7 (by omega),
        hmaxE 0 (by omega) (by omega),
        hmaxE 1 (by omega) (by omega),
        hmaxE 2 (by omega) (by omega),
        hmaxE 3 (by omega) (by omega),
        hmaxE 5 (by omega) (by omega),
        hmaxE 6 (by omega) (by omega),
        hmaxE 7 (by omega) (by omega)]
      rfl
    unfold calculateChecksum
    rw [hL]
    exact foldl_set_ne (chkVals r2) 12 (r1.maximum 4) 0 (by norm_num)
      (by simp [chkVals]) h1 h2 hne
  · have hL : chkVals r1 = (chkVals r2).set 14 (r1.maximum 5) := by
      unfold chkVals
      rw [hm,
        hv,
        hs,
        hminE 0 (by omega),
        hminE 1 (by omega),
        hminE 2 (by omega),
        hminE 3 (by omega),
        hminE 4 (by omega),
        hminE 5 (by omega),
        hminE 6 (by omega),
        hminE 7 (by omega),
        hmaxE 0 (by omega) (by omega),
        hmaxE 1 (by omega) (by omega),
        hmaxE 2 (by omega) (by omega),
        hmaxE 3 (by omega) (by omega),
        hmaxE 4 (by omega) (by omega),
        hmaxE 6 (by omega) (by omega),
        hmaxE 7 (by omega) (by omega)]
      rfl
    unfold calculateChecksum
    rw [hL]
    exact foldl_set_ne (chkVals r2) 14 (r1.maximum 5) 0 (by norm_num)
      (by simp [chkVals]) h1 h2 hne
  · have hL : chkVals r1 = (chkVals r2).set 16 (r1.maximum 6) := by
      unfold chkVals
      rw [hm,
        hv,
        hs,
        hminE 0 (by omega),
        hminE 1 (by omega),
        hminE 2 (by omega),
        hminE 3 (by omega),
        hminE 4 (by omega),
        hminE 5 (by omega),
        hminE 6 (by omega),
        hminE 7 (by omega),
        hmaxE 0 (by omega) (by omega),
        hmaxE 1 (by omega) (by omega),
        hmaxE 2 (by omega) (by omega),
        hmaxE 3 (by omega) (by omega),
        hmaxE 4 (by omega) (by omega),
        hmaxE 5 (by omega) (by omega),
        hmaxE 7 (by omega) (by omega)]
      rfl
    unfold calculateChecksum
    rw [hL]
    exact foldl_set_ne (chkVals r2) 16 (r1.maximum 6) 0 (by norm_num)
      (by simp [chkVals]) h1 h2 hne
  · have hL : chkVals r1 = (chkVals r2).set 18 (r1.maximum 7) := by
      unfold chkVals
      rw [hm,
        hv,
        hs,
        hminE 0 (by omega),
        hminE 1 (by omega),
        hminE 2 (by omega),
        hminE 3 (by omega),
        hminE 4 (by omega),
        hminE 5 (by omega),
        hminE 6 (by omega),
        hminE 7 (by omega),
        hmaxE 0 (by omega) (by omega),
        hmaxE 1 (by omega) (by omega),
        hmaxE 2 (by omega) (by omega),
        hmaxE 3 (by omega) (by omega),
        hmaxE 4 (by omega) (by omega),
        hmaxE 5 (by omega) (by omega),
        hmaxE 6 (by omega) (by omega)]
      rfl
    unfold calculateChecksum
    rw [hL]
    exact foldl_set_ne (chkVals r2) 18 (r1.maximum 7) 0 (by norm_num)
      (by simp [chkVals]) h1 h2 hne

/-- The validator reports `CHECKSUM_FAILED` whenever the first three layers
pass and the stored checksum disagrees with the recomputed one. -/
theorem validate_checksum_layer (sc : Nat) (d : CalibrationData)
    (h1 : d.magic = CALIBRATION_MAGIC) (h2 : d.version = CALIBRATION_VERSION)
    (h3 : d.sensorCount = sc)
    (h4 : d.checksum ≠ calculateChecksum { d with checksum := 0 }) :
    validateCalibrationData sc d = .CHECKSUM_FAILED := by
  unfold validateCalibrationData
  rw [if_neg (by simp [h1]), if_neg (by simp [h2]), if_neg (by simp [h3]),
    if_pos h4]

/-- Flipping a byte leaves every other byte unchanged. -/
theorem byteAt_flip_ne (l : List Nat) (j b k : Nat) (h : k ≠ j) :
    byteAt (flipByteBit l j b) k = byteAt l k :=
  byteAt_set_ne l j k _ (Ne.symm h)

/-- The flipped byte itself. -/
theorem byteAt_flip_self (l : List Nat) (j b : Nat) (h : j < l.length) :
    byteAt (flipByteBit l j b) j = byteAt l j ^^^ 2 ^ b :=
  byteAt_set_self l j _ h


/-- Flipping bit `b` of the low byte of `minimum[i]` in the packed image
of a checksummed record makes the validator fail at the checksum layer. -/
theorem flip_min_low (d : CalibrationData) (sc i b : Nat)
    (hi : i < 8) (hb : b < 8)
    (hm : d.magic = CALIBRATION_MAGIC) (hv : d.version = CALIBRATION_VERSION)
    (hs : d.sensorCount = sc) (h256 : sc < 256)
    (hminB : ∀ k, k < 8 → d.minimum k < 65536)
    (hmaxB : ∀ k, k < 8 → d.maximum k < 65536)
    (hck : d.checksum = calculateChecksum d) :
    validateCalibrationData sc (deserialize (flipByteBit (serialize d) (4 + 2 * i) b))
      = .CHECKSUM_FAILED := by
  obtain ⟨t1, t2, t3, t4, t5, t6⟩ := deserialize_serialize d
    (by rw [hm]; norm_num [CALIBRATION_MAGIC])
    (by rw [hv]; norm_num [CALIBRATION_VERSION])
    (by rw [hs]; omega)
    hminB hmaxB
    (by rw [hck]; exact calculateChecksum_lt d)
  have hlen : (serialize d).length = 40 := rfl
  have em : (deserialize (flipByteBit (serialize d) (4 + 2 * i) b)).magic = d.magic := by
    show byteAt (flipByteBit (serialize d) (4 + 2 * i) b) 0 + 256 * byteAt (flipByteBit (serialize d) (4 + 2 * i) b) 1 = d.magic
    rw [byteAt_flip_ne (serialize d) (4 + 2 * i) b 0 (by omega),
      byteAt_flip_ne (serialize d) (4 + 2 * i) b 1 (by omega)]
    exact t1
  have ev : (deserialize (flipByteBit (serialize d) (4 + 2 * i) b)).version = d.version := by
    show byteAt (flipByteBit (serialize d) (4 + 2 * i) b) 2 = d.version
    rw [byteAt_flip_ne (serialize d) (4 + 2 * i) b 2 (by omega)]
    exact t2
  have es : (deserialize (flipByteBit (serialize d) (4 + 2 * i) b)).sensorCount = d.sensorCount := by
    show byteAt (flipByteBit (serialize d) (4 + 2 * i) b) 3 = d.sensorCount
    rw [byteAt_flip_ne (serialize d) (4 + 2 * i) b 3 (by omega)]
    exact t3
  have ec : (deserialize (flipByteBit (serialize d) (4 + 2 * i) b)).checksum = d.checksum := by
    show byteAt (flipByteBit (serialize d) (4 + 2 * i) b) 36 + 256 * byteAt (flipByteBit (serialize d) (4 + 2 * i) b) 37
        + 65536 * byteAt (flipByteBit (serialize d) (4 + 2 * i) b) 38 + 16777216 * byteAt (flipByteBit (serialize d) (4 + 2 * i) b) 39 = d.checksum
    rw [byteAt_flip_ne (serialize d) (4 + 2 * i) b 36 (by omega),
      byteAt_flip_ne (serialize d) (4 + 2 * i) b 37 (by omega),
      byteAt_flip_ne (serialize d) (4 + 2 * i) b 38 (by omega),
      byteAt_flip_ne (serialize d) (4 + 2 * i) b 39 (by omega)]
    exact t6
  have eoth : ∀ k, k < 8 → (deserialize (flipByteBit (serialize d) (4 + 2 * i) b)).maximum k = d.maximum k := by
    intro k hk
    have ho := t5 k hk
    rw [show (deserialize (serialize d)).maximum k
        = (if k < 8 then byteAt (serialize d) (20 + 2 * k)
            + 256 * byteAt (serialize d) (21 + 2 * k) else 0) from rfl,
      if_pos hk] at ho
    show (if k < 8 then byteAt (flipByteBit (serialize d) (4 + 2 * i) b) (20 + 2 * k)
        + 256 * byteAt (flipByteBit (serialize d) (4 + 2 * i) b) (21 + 2 * k) else 0) = d.maximum k
    rw [if_pos hk, byteAt_flip_ne (serialize d) (4 + 2 * i) b (20 + 2 * k) (by omega),
      byteAt_flip_ne (serialize d) (4 + 2 * i) b (21 + 2 * k) (by omega)]
    exact ho
  have esame : ∀ k, k < 8 → k ≠ i → (deserialize (flipByteBit (serialize d) (4 + 2 * i) b)).minimum k = d.minimum k := by
    intro k hk hki
    have hc := t4 k hk
    rw [show (deserialize (serialize d)).minimum k
        = (if k < 8 then byteAt (serialize d) (4 + 2 * k)
            + 256 * byteAt (serialize d) (5 + 2 * k) else 0) from rfl,
      if_pos hk] at hc
    show (if k < 8 then byteAt (flipByteBit (serialize d) (4 + 2 * i) b) (4 + 2 * k)
        + 256 * byteAt (flipByteBit (serialize d) (4 + 2 * i) b) (5 + 2 * k) else 0) = d.minimum k
    rw [if_pos hk, byteAt_flip_ne (serialize d) (4 + 2 * i) b (4 + 2 * k) (by omega),
      byteAt_flip_ne (serialize d) (4 + 2 * i) b (5 + 2 * k) (by omega)]
    exact hc
  have eflip : (deserialize (flipByteBit (serialize d) (4 + 2 * i) b)).minimum i
      = (d.minimum i % 256 ^^^ 2 ^ b) + 256 * (d.minimum i / 256 % 256) := by
    show (if i < 8 then byteAt (flipByteBit (serialize d) (4 + 2 * i) b) (4 + 2 * i)
        + 256 * byteAt (flipByteBit (serialize d) (4 + 2 * i) b) (5 + 2 * i) else 0) = _
    rw [if_pos hi,
      byteAt_flip_self (serialize d) (4 + 2 * i) b (by rw [hlen]; omega),
      byteAt_flip_ne (serialize d) (4 + 2 * i) b (5 + 2 * i) (by omega),
      (serialize_min_bytes d i hi).1, (serialize_min_bytes d i hi).2]
  have hdb : d.minimum i < 65536 := hminB i hi
  have hxne := xor_flip_ne (d.minimum i % 256) b
  have hxlt := xor_flip_lt (d.minimum i % 256) b (by omega) hb
  have hne : (deserialize (flipByteBit (serialize d) (4 + 2 * i) b)).minimum i ≠ d.minimum i := by
    rw [eflip]
    omega
  have hlt : (deserialize (flipByteBit (serialize d) (4 + 2 * i) b)).minimum i < 4294967296 := by
    rw [eflip]
    omega
  have hcsne := calculateChecksum_ne_min (deserialize (flipByteBit (serialize d) (4 + 2 * i) b)) d i hi
    em ev es esame eoth hlt (by omega) hne
  apply validate_checksum_layer sc (deserialize (flipByteBit (serialize d) (4 + 2 * i) b))
    (em.trans hm) (ev.trans hv) (es.trans hs)
  rw [calculateChecksum_set_checksum (deserialize (flipByteBit (serialize d) (4 + 2 * i) b)) 0, ec, hck]
  exact Ne.symm hcsne

/-- Flipping bit `b` of the high byte of `minimum[i]` in the packed image
of a checksummed record makes the validator fail at the checksum layer. -/
theorem flip_min_high (d : CalibrationData) (sc i b : Nat)
    (hi : i < 8) (hb : b < 8)
    (hm : d.magic = CALIBRATION_MAGIC) (hv : d.version = CALIBRATION_VERSION)
    (hs : d.sensorCount = sc) (h256 : sc < 256)
    (hminB : ∀ k, k < 8 → d.minimum k < 65536)
    (hmaxB : ∀ k, k < 8 → d.maximum k < 65536)
    (hck : d.checksum = calculateChecksum d) :
    validateCalibrationData sc (deserialize (flipByteBit (serialize d) (5 + 2 * i) b))
      = .CHECKSUM_FAILED := by
  obtain ⟨t1, t2, t3, t4, t5, t6⟩ := deserialize_serialize d
    (by rw [hm]; norm_num [CALIBRATION_MAGIC])
    (by rw [hv]; norm_num [CALIBRATION_VERSION])
    (by rw [hs]; omega)
    hminB hmaxB
    (by rw [hck]; exact calculateChecksum_lt d)
  have hlen : (serialize d).length = 40 := rfl
  have em : (deserialize (flipByteBit (serialize d) (5 + 2 * i) b)).magic = d.magic := by
    show byteAt (flipByteBit (serialize d) (5 + 2 * i) b) 0 + 256 * byteAt (flipByteBit (serialize d) (5 + 2 * i) b) 1 = d.magic
    rw [byteAt_flip_ne (serialize d) (5 + 2 * i) b 0 (by omega),
      byteAt_flip_ne (serialize d) (5 + 2 * i) b 1 (by omega)]
    exact t1
  have ev : (deserialize (flipByteBit (serialize d) (5 + 2 * i) b)).version = d.version := by
    show byteAt (flipByteBit (serialize d) (5 + 2 * i) b) 2 = d.version
    rw [byteAt_flip_ne (serialize d) (5 + 2 * i) b 2 (by omega)]
    exact t2
  have es : (deserialize (flipByteBit (serialize d) (5 + 2 * i) b)).sensorCount = d.sensorCount := by
    show byteAt (flipByteBit (serialize d) (5 + 2 * i) b) 3 = d.sensorCount
    rw [byteAt_flip_ne (serialize d) (5 + 2 * i) b 3 (by omega)]
    exact t3
  have ec : (deserialize (flipByteBit (serialize d) (5 + 2 * i) b)).checksum = d.checksum := by
    show byteAt (flipByteBit (serialize d) (5 + 2 * i) b) 36 + 256 * byteAt (flipByteBit (serialize d) (5 + 2 * i) b) 37
        + 65536 * byteAt (flipByteBit (serialize d) (5 + 2 * i) b) 38 + 16777216 * byteAt (flipByteBit (serialize d) (5 + 2 * i) b) 39 = d.checksum
    rw [byteAt_flip_ne (serialize d) (5 + 2 * i) b 36 (by omega),
      byteAt_flip_ne (serialize d) (5 + 2 * i) b 37 (by omega),
      byteAt_flip_ne (serialize d) (5 + 2 * i) b 38 (by omega),
      byteAt_flip_ne (serialize d) (5 + 2 * i) b 39 (by omega)]
    exact t6
  have eoth : ∀ k, k < 8 → (deserialize (flipByteBit (serialize d) (5 + 2 * i) b)).maximum k = d.maximum k := by
    intro k hk
    have ho := t5 k hk
    rw [show (deserialize (serialize d)).maximum k
        = (if k < 8 then byteAt (serialize d) (20 + 2 * k)
            + 256 * byteAt (serialize d) (21 + 2 * k) else 0) from rfl,
      if_pos hk] at ho
    show (if k < 8 then byteAt (flipByteBit (serialize d) (5 + 2 * i) b) (20 + 2 * k)
        + 256 * byteAt (flipByteBit (serialize d) (5 + 2 * i) b) (21 + 2 * k) else 0) = d.maximum k
    rw [if_pos hk, byteAt_flip_ne (serialize d) (5 + 2 * i) b (20 + 2 * k) (by omega),
      byteAt_flip_ne (serialize d) (5 + 2 * i) b (21 + 2 * k) (by omega)]
    exact ho
  have esame : ∀ k, k < 8 → k ≠ i → (deserialize (flipByteBit (serialize d) (5 + 2 * i) b)).minimum k = d.minimum k := by
    intro k hk hki
    have hc := t4 k hk
    rw [show (deserialize (serialize d)).minimum k
        = (if k < 8 then byteAt (serialize d) (4 + 2 * k)
            + 256 * byteAt (serialize d) (5 + 2 * k) else 0) from rfl,
      if_pos hk] at hc
    show (if k < 8 then byteAt (flipByteBit (serialize d) (5 + 2 * i) b) (4 + 2 * k)
        + 256 * byteAt (flipByteBit (serialize d) (5 + 2 * i) b) (5 + 2 * k) else 0) = d.minimum k
    rw [if_pos hk, byteAt_flip_ne (serialize d) (5 + 2 * i) b (4 + 2 * k) (by omega),
      byteAt_flip_ne (serialize d) (5 + 2 * i) b (5 + 2 * k) (by omega)]
    exact hc
  have eflip : (deserialize (flipByteBit (serialize d) (5 + 2 * i) b)).minimum i
      = d.minimum i % 256 + 256 * (d.minimum i / 256 % 256 ^^^ 2 ^ b) := by
    show (if i < 8 then byteAt (flipByteBit (serialize d) (5 + 2 * i) b) (4 + 2 * i)
        + 256 * byteAt (flipByteBit (serialize d) (5 + 2 * i) b) (5 + 2 * i) else 0) = _
    rw [if_pos hi,
      byteAt_flip_self (serialize d) (5 + 2 * i) b (by rw [hlen]; omega),
      byteAt_flip_ne (serialize d) (5 + 2 * i) b (4 + 2 * i) (by omega),
      (serialize_min_bytes d i hi).1, (serialize_min_bytes d i hi).2]
  have hdb : d.minimum i < 65536 := hminB i hi
  have hxne := xor_flip_ne (d.minimum i / 256 % 256) b
  have hxlt := xor_flip_lt (d.minimum i / 256 % 256) b (by omega) hb
  have hne : (deserialize (flipByteBit (serialize d) (5 + 2 * i) b)).minimum i ≠ d.minimum i := by
    rw [eflip]
    omega
  have hlt : (deserialize (flipByteBit (serialize d) (5 + 2 * i) b)).minimum i < 4294967296 := by
    rw [eflip]
    omega
  have hcsne := calculateChecksum_ne_min (deserialize (flipByteBit (serialize d) (5 + 2 * i) b)) d i hi
    em ev es esame eoth hlt (by omega) hne
  apply validate_checksum_layer sc (deserialize (flipByteBit (serialize d) (5 + 2 * i) b))
    (em.trans hm) (ev.trans hv) (es.trans hs)
  rw [calculateChecksum_set_checksum (deserialize (flipByteBit (serialize d) (5 + 2 * i) b)) 0, ec, hck]
  exact Ne.symm hcsne

/-- Flipping bit `b` of the low byte of `maximum[i]` in the packed image
of a checksummed record makes the validator fail at the checksum layer. -/
theorem flip_max_low (d : CalibrationData) (sc i b : Nat)
    (hi : i < 8) (hb : b < 8)
    (hm : d.magic = CALIBRATION_MAGIC) (hv : d.version = CALIBRATION_VERSION)
    (hs : d.sensorCount = sc) (h256 : sc < 256)
    (hminB : ∀ k, k < 8 → d.minimum k < 65536)
    (hmaxB : ∀ k, k < 8 → d.maximum k < 65536)
    (hck : d.checksum = calculateChecksum d) :
    validateCalibrationData sc (deserialize (flipByteBit (serialize d) (20 + 2 * i) b))
      = .CHECKSUM_FAILED := by
  obtain ⟨t1, t2, t3, t4, t5, t6⟩ := deserialize_serialize d
    (by rw [hm]; norm_num [CALIBRATION_MAGIC])
    (by rw [hv]; norm_num [CALIBRATION_VERSION])
    (by rw [hs]; omega)
    hminB hmaxB
    (by rw [hck]; exact calculateChecksum_lt d)
  have hlen : (serialize d).length = 40 := rfl
  have em : (deserialize (flipByteBit (serialize d) (20 + 2 * i) b)).magic = d.magic := by
    show byteAt (flipByteBit (serialize d) (20 + 2 * i) b) 0 + 256 * byteAt (flipByteBit (serialize d) (20 + 2 * i) b) 1 = d.magic
    rw [byteAt_flip_ne (serialize d) (20 + 2 * i) b 0 (by omega),
      byteAt_flip_ne (serialize d) (20 + 2 * i) b 1 (by omega)]
    exact t1
  have ev : (deserialize (flipByteBit (serialize d) (20 + 2 * i) b)).version = d.version := by
    show byteAt (flipByteBit (serialize d) (20 + 2 * i) b) 2 = d.version
    rw [byteAt_flip_ne (serialize d) (20 + 2 * i) b 2 (by omega)]
    exact t2
  have es : (deserialize (flipByteBit (serialize d) (20 + 2 * i) b)).sensorCount = d.sensorCount := by
    show byteAt (flipByteBit (serialize d) (20 + 2 * i) b) 3 = d.sensorCount
    rw [byteAt_flip_ne (serialize d) (20 + 2 * i) b 3 (by omega)]
    exact t3
  have ec : (deserialize (flipByteBit (serialize d) (20 + 2 * i) b)).checksum = d.checksum := by
    show byteAt (flipByteBit (serialize d) (20 + 2 * i) b) 36 + 256 * byteAt (flipByteBit (serialize d) (20 + 2 * i) b) 37
        + 65536 * byteAt (flipByteBit (serialize d) (20 + 2 * i) b) 38 + 16777216 * byteAt (flipByteBit (serialize d) (20 + 2 * i) b) 39 = d.checksum
    rw [byteAt_flip_ne (serialize d) (20 + 2 * i) b 36 (by omega),
      byteAt_flip_ne (serialize d) (20 + 2 * i) b 37 (by omega),
      byteAt_flip_ne (serialize d) (20 + 2 * i) b 38 (by omega),
      byteAt_flip_ne (serialize d) (20 + 2 * i) b 39 (by omega)]
    exact t6
  have eoth : ∀ k, k < 8 → (deserialize (flipByteBit (serialize d) (20 + 2 * i) b)).minimum k = d.minimum k := by
    intro k hk
    have ho := t4 k hk
    rw [show (deserialize (serialize d)).minimum k
        = (if k < 8 then byteAt (serialize d) (4 + 2 * k)
            + 256 * byteAt (serialize d) (5 + 2 * k) else 0) from rfl,
      if_pos hk] at ho
    show (if k < 8 then byteAt (flipByteBit (serialize d) (20 + 2 * i) b) (4 + 2 * k)
        + 256 * byteAt (flipByteBit (serialize d) (20 + 2 * i) b) (5 + 2 * k) else 0) = d.minimum k
    rw [if_pos hk, byteAt_flip_ne (serialize d) (20 + 2 * i) b (4 + 2 * k) (by omega),
      byteAt_flip_ne (serialize d) (20 + 2 * i) b (5 + 2 * k) (by omega)]
    exact ho
  have esame : ∀ k, k < 8 → k ≠ i → (deserialize (flipByteBit (serialize d) (20 + 2 * i) b)).maximum k = d.maximum k := by
    intro k hk hki
    have hc := t5 k hk
    rw [show (deserialize (serialize d)).maximum k
        = (if k < 8 then byteAt (serialize d) (20 + 2 * k)
            + 256 * byteAt (serialize d) (21 + 2 * k) else 0) from rfl,
      if_pos hk] at hc
    show (if k < 8 then byteAt (flipByteBit (serialize d) (20 + 2 * i) b) (20 + 2 * k)
        + 256 * byteAt (flipByteBit (serialize d) (20 + 2 * i) b) (21 + 2 * k) else 0) = d.maximum k
    rw [if_pos hk, byteAt_flip_ne (serialize d) (20 + 2 * i) b (20 + 2 * k) (by omega),
      byteAt_flip_ne (serialize d) (20 + 2 * i) b (21 + 2 * k) (by omega)]
    exact hc
  have eflip : (deserialize (flipByteBit (serialize d) (20 + 2 * i) b)).maximum i
      = (d.maximum i % 256 ^^^ 2 ^ b) + 256 * (d.maximum i / 256 % 256) := by
    show (if i < 8 then byteAt (flipByteBit (serialize d) (20 + 2 * i) b) (20 + 2 * i)
        + 256 * byteAt (flipByteBit (serialize d) (20 + 2 * i) b) (21 + 2 * i) else 0) = _
    rw [if_pos hi,
      byteAt_flip_self (serialize d) (20 + 2 * i) b (by rw [hlen]; omega),
      byteAt_flip_ne (serialize d) (20 + 2 * i) b (21 + 2 * i) (by omega),
      (serialize_max_bytes d i hi).1, (serialize_max_bytes d i hi).2]
  have hdb : d.maximum i < 65536 := hmaxB i hi
  have hxne := xor_flip_ne (d.maximum i % 256) b
  have hxlt := xor_flip_lt (d.maximum i % 256) b (by omega) hb
  have hne : (deserialize (flipByteBit (serialize d) (20 + 2 * i) b)).maximum i ≠ d.maximum i := by
    rw [eflip]
    omega
  have hlt : (deserialize (flipByteBit (serialize d) (20 + 2 * i) b)).maximum i < 4294967296 := by
    rw [eflip]
    omega
  have hcsne := calculateChecksum_ne_max (deserialize (flipByteBit (serialize d) (20 + 2 * i) b)) d i hi
    em ev es eoth esame hlt (by omega) hne
  apply validate_checksum_layer sc (deserialize (flipByteBit (serialize d) (20 + 2 * i) b))
    (em.trans hm) (ev.trans hv) (es.trans hs)
  rw [calculateChecksum_set_checksum (deserialize (flipByteBit (serialize d) (20 + 2 * i) b)) 0, ec, hck]
  exact Ne.symm hcsne

/-- Flipping bit `b` of the high byte of `maximum[i]` in the packed image
of a checksummed record makes the validator fail at the checksum layer. -/
theorem flip_max_high (d : CalibrationData) (sc i b : Nat)
    (hi : i < 8) (hb : b < 8)
    (hm : d.magic = CALIBRATION_MAGIC) (hv : d.version = CALIBRATION_VERSION)
    (hs : d.sensorCount = sc) (h256 : sc < 256)
    (hminB : ∀ k, k < 8 → d.minimum k < 65536)
    (hmaxB : ∀ k, k < 8 → d.maximum k < 65536)
    (hck : d.checksum = calculateChecksum d) :
    validateCalibrationData sc (deserialize (flipByteBit (serialize d) (21 + 2 * i) b))
      = .CHECKSUM_FAILED := by
  obtain ⟨t1, t2, t3, t4, t5, t6⟩ := deserialize_serialize d
    (by rw [hm]; norm_num [CALIBRATION_MAGIC])
    (by rw [hv]; norm_num [CALIBRATION_VERSION])
    (by rw [hs]; omega)
    hminB hmaxB
    (by rw [hck]; exact calculateChecksum_lt d)
  have hlen : (serialize d).length = 40 := rfl
  have em : (deserialize (flipByteBit (serialize d) (21 + 2 * i) b)).magic = d.magic := by
    show byteAt (flipByteBit (serialize d) (21 + 2 * i) b) 0 + 256 * byteAt (flipByteBit (serialize d) (21 + 2 * i) b) 1 = d.magic
    rw [byteAt_flip_ne (serialize d) (21 + 2 * i) b 0 (by omega),
      byteAt_flip_ne (serialize d) (21 + 2 * i) b 1 (by omega)]
    exact t1
  have ev : (deserialize (flipByteBit (serialize d) (21 + 2 * i) b)).version = d.version := by
    show byteAt (flipByteBit (serialize d) (21 + 2 * i) b) 2 = d.version
    rw [byteAt_flip_ne (serialize d) (21 + 2 * i) b 2 (by omega)]
    exact t2
  have es : (deserialize (flipByteBit (serialize d) (21 + 2 * i) b)).sensorCount = d.sensorCount := by
    show byteAt (flipByteBit (serialize d) (21 + 2 * i) b) 3 = d.sensorCount
    rw [byteAt_flip_ne (serialize d) (21 + 2 * i) b 3 (by omega)]
    exact t3
  have ec : (deserialize (flipByteBit (serialize d) (21 + 2 * i) b)).checksum = d.checksum := by
    show byteAt (flipByteBit (serialize d) (21 + 2 * i) b) 36 + 256 * byteAt (flipByteBit (serialize d) (21 + 2 * i) b) 37
        + 65536 * byteAt (flipByteBit (serialize d) (21 + 2 * i) b) 38 + 16777216 * byteAt (flipByteBit (serialize d) (21 + 2 * i) b) 39 = d.checksum
    rw [byteAt_flip_ne (serialize d) (21 + 2 * i) b 36 (by omega),
      byteAt_flip_ne (serialize d) (21 + 2 * i) b 37 (by omega),
      byteAt_flip_ne (serialize d) (21 + 2 * i) b 38 (by omega),
      byteAt_flip_ne (serialize d) (21 + 2 * i) b 39 (by omega)]
    exact t6
  have eoth : ∀ k, k < 8 → (deserialize (flipByteBit (serialize d) (21 + 2 * i) b)).minimum k = d.minimum k := by
    intro k hk
    have ho := t4 k hk
    rw [show (deserialize (serialize d)).minimum k
        = (if k < 8 then byteAt (serialize d) (4 + 2 * k)
            + 256 * byteAt (serialize d) (5 + 2 * k) else 0) from rfl,
      if_pos hk] at ho
    show (if k < 8 then byteAt (flipByteBit (serialize d) (21 + 2 * i) b) (4 + 2 * k)
        + 256 * byteAt (flipByteBit (serialize d) (21 + 2 * i) b) (5 + 2 * k) else 0) = d.minimum k
    rw [if_pos hk, byteAt_flip_ne (serialize d) (21 + 2 * i) b (4 + 2 * k) (by omega),
      byteAt_flip_ne (serialize d) (21 + 2 * i) b (5 + 2 * k) (by omega)]
    exact ho
  have esame : ∀ k, k < 8 → k ≠ i → (deserialize (flipByteBit (serialize d) (21 + 2 * i) b)).maximum k = d.maximum k := by
    intro k hk hki
    have hc := t5 k hk
    rw [show (deserialize (serialize d)).maximum k
        = (if k < 8 then byteAt (serialize d) (20 + 2 * k)
            + 256 * byteAt (serialize d) (21 + 2 * k) else 0) from rfl,
      if_pos hk] at hc
    show (if k < 8 then byteAt (flipByteBit (serialize d) (21 + 2 * i) b) (20 + 2 * k)
        + 256 * byteAt (flipByteBit (serialize d) (21 + 2 * i) b) (21 + 2 * k) else 0) = d.maximum k
    rw [if_pos hk, byteAt_flip_ne (serialize d) (21 + 2 * i) b (20 + 2 * k) (by omega),
      byteAt_flip_ne (serialize d) (21 + 2 * i) b (21 + 2 * k) (by omega)]
    exact hc
  have eflip : (deserialize (flipByteBit (serialize d) (21 + 2 * i) b)).maximum i
      = d.maximum i % 256 + 256 * (d.maximum i / 256 % 256 ^^^ 2 ^ b) := by
    show (if i < 8 then byteAt (flipByteBit (serialize d) (21 + 2 * i) b) (20 + 2 * i)
        + 256 * byteAt (flipByteBit (serialize d) (21 + 2 * i) b) (21 + 2 * i) else 0) = _
    rw [if_pos hi,
      byteAt_flip_self (serialize d) (21 + 2 * i) b (by rw [hlen]; omega),
      byteAt_flip_ne (serialize d) (21 + 2 * i) b (20 + 2 * i) (by omega),
      (serialize_max_bytes d i hi).1, (serialize_max_bytes d i hi).2]
  have hdb : d.maximum i < 65536 := hmaxB i hi
  have hxne := xor_flip_ne (d.maximum i / 256 % 256) b
  have hxlt := xor_flip_lt (d.maximum i / 256 % 256) b (by omega) hb
  have hne : (deserialize (flipByteBit (serialize d) (21 + 2 * i) b)).maximum i ≠ d.maximum i := by
    rw [eflip]
    omega
  have hlt : (deserialize (flipByteBit (serialize d) (21 + 2 * i) b)).maximum i < 4294967296 := by
    rw [eflip]
    omega
  have hcsne := calculateChecksum_ne_max (deserialize (flipByteBit (serialize d) (21 + 2 * i) b)) d i hi
    em ev es eoth esame hlt (by omega) hne
  apply validate_checksum_layer sc (deserialize (flipByteBit (serialize d) (21 + 2 * i) b))
    (em.trans hm) (ev.trans hv) (es.trans hs)
  rw [calculateChecksum_set_checksum (deserialize (flipByteBit (serialize d) (21 + 2 * i) b)) 0, ec, hck]
  exact Ne.symm hcsne


/-- Claim C3 (amended): for a record with the fields a successful save
produces (correct magic, version, matching sensor count, in-range bounds,
and a checksum consistent with the contents), flipping any single bit of
the serialized bytes inside the bounds arrays (bytes 4..35, i.e. outside
the header and outside the checksum field) makes `validateCalibrationData`
return `CHECKSUM_FAILED`. Flips in the header bytes 0..3 are instead caught
by the earlier magic/version/sensor-count layers. -/
theorem C3_bitflip_checksum (d : CalibrationData) (sc j b : Nat)
    (hm : d.magic = CALIBRATION_MAGIC) (hv : d.version = CALIBRATION_VERSION)
    (hs : d.sensorCount = sc) (h256 : sc < 256)
    (hminB : ∀ k, k < 8 → d.minimum k < 65536)
    (hmaxB : ∀ k, k < 8 → d.maximum k < 65536)
    (hck : d.checksum = calculateChecksum d)
    (hj1 : 4 ≤ j) (hj2 : j < 36) (hb : b < 8) :
    validateCalibrationData sc (deserialize (flipByteBit (serialize d) j b))
      = .CHECKSUM_FAILED := by
  rcases Nat.lt_or_ge j 20 with hj3 | hj3
  · rcases Nat.even_or_odd j with he | he
    · obtain ⟨t, ht⟩ := he
      obtain ⟨i, hi, rfl⟩ : ∃ i, i < 8 ∧ j = 4 + 2 * i :=
        ⟨(j - 4) / 2, by omega, by omega⟩
      exact flip_min_low d sc i b (by omega) hb hm hv hs h256 hminB hmaxB hck
    · obtain ⟨t, ht⟩ := he
      obtain ⟨i, hi, rfl⟩ : ∃ i, i < 8 ∧ j = 5 + 2 * i :=
        ⟨(j - 5) / 2, by omega, by omega⟩
      exact flip_min_high d sc i b (by omega) hb hm hv hs h256 hminB hmaxB hck
  · rcases Nat.even_or_odd j with he | he
    · obtain ⟨t, ht⟩ := he
      obtain ⟨i, hi, rfl⟩ : ∃ i, i < 8 ∧ j = 20 + 2 * i :=
        ⟨(j - 20) / 2, by omega, by omega⟩
      exact flip_max_low d sc i b (by omega) hb hm hv hs h256 hminB hmaxB hck
    · obtain ⟨t, ht⟩ := he
      obtain ⟨i, hi, rfl⟩ : ∃ i, i < 8 ∧ j = 21 + 2 * i :=
        ⟨(j - 21) / 2, by omega, by omega⟩
      exact flip_max_high d sc i b (by omega) hb hm hv hs h256 hminB hmaxB hck

/-- The record a successful save builds from the spec's example bounds. -/
def c3rec : CalibrationData := buildRecord 8 (fun _ => 100) (fun _ => 3000)

/-- Counterexample to C3 as stated: the save on these bounds succeeds, and
flipping bit 0 of serialized byte 0 — a byte outside the checksum field —
is diagnosed as `MAGIC_NUMBER_MISMATCH`, not `CHECKSUM_FAILED`, because the
magic layer runs first. -/
theorem C3_counterexample :
    (saveCalibration m2w s2w (fun _ => 100) (fun _ => 3000)).1 = true ∧
    validateCalibrationData 8 (deserialize (flipByteBit (serialize c3rec) 0 0))
      = ErrorCode.MAGIC_NUMBER_MISMATCH ∧
    ErrorCode.MAGIC_NUMBER_MISMATCH ≠ ErrorCode.CHECKSUM_FAILED := by
  refine ⟨?_, ?_, ?_⟩ <;> decide

/-- Witness for the amended C3: flipping bit 0 of byte 4 (the low byte of
`minimum[0]`) of the saved example record yields `CHECKSUM_FAILED`. -/
theorem C3_bitflip_checksum_witness :
    validateCalibrationData 8 (deserialize (flipByteBit (serialize c3rec) 4 0))
      = ErrorCode.CHECKSUM_FAILED :=
  C3_bitflip_checksum c3rec 8 4 0 rfl rfl rfl (by norm_num)
    (by intro k hk
        show (if k < 8 then 100 else 0) < 65536
        rw [if_pos hk]
        norm_num)
    (by intro k hk
        show (if k < 8 then 3000 else 0) < 65536
        rw [if_pos hk]
        norm_num)
    rfl (by norm_num) (by norm_num) (by norm_num)

/-- Claim C10: `hasValidCalibration` never modifies the manager's stored
last-error state (indeed it leaves the whole manager state unchanged), for
every manager state and store, even when it returns `false`. -/
theorem C10_hasValidCalibration_frame (m : Manager) (s : EEPROMStore) :
    (hasValidCalibration m s).2.lastError = m.lastError ∧
    (hasValidCalibration m s).2 = m := by
  unfold hasValidCalibration
  split_ifs <;> exact ⟨rfl, rfl⟩

end LineFollower
